import Mathlib

/-!
Shallow embedding of the "Cyber Defender" minigame core from
`src/components/CyberGame.tsx` (the single self-contained simulation this
repository contains), together with proofs about its simulation step.

Conventions of the embedding:
* JavaScript numbers are modelled as `ℚ` (all gameplay arithmetic in the
  source is exact decimal arithmetic; `Math.sin`, `Math.cos`, `Math.sqrt`,
  `Math.PI` and `Math.random` are irrational / nondeterministic and are
  supplied by an `Env` of oracle functions, one application per call site,
  with `Math.random` keyed by call site and slot index).
* Counters (`lives`, `score`, `level`, `combo`, `multiplier`) are `Int`.
* The module-level entity pools (mutable arrays of reused slots) are lists
  carried in a `World` record next to the React `GameState`, the
  `highScoreRef` ref and the single `localStorage` entry.
* JavaScript `x || d` on numbers treats `0` as falsy; `jsOrQ`/`jsOrI`
  reproduce that for the optional enemy fields.
-/

set_option allowUnsafeReducibility true
set_option maxRecDepth 10000
attribute [local semireducible] Rat.add Rat.sub Rat.mul Rat.div Rat.inv Rat.ofScientific

namespace CyberGame

/-- Game constants from the top of `CyberGame.tsx`. -/
def CANVAS_WIDTH : ℚ := 800

def CANVAS_HEIGHT : ℚ := 600

def HALF_CANVAS_WIDTH : ℚ := CANVAS_WIDTH / 2

def HALF_CANVAS_HEIGHT : ℚ := CANVAS_HEIGHT / 2

def PLAYER_SPEED : ℚ := 8

def PROJECTILE_SPEED : ℚ := 12

def ENEMY_SPEED : ℚ := 2

def SHOT_COOLDOWN : ℚ := 150

def ENEMY_SPAWN_INTERVAL : ℚ := 2500

def BOSS_SPAWN_LEVEL : Int := 5

/-- `interface Player extends GameEntity`. -/
structure Player where
  x : ℚ
  y : ℚ
  active : Bool
  width : ℚ
  height : ℚ
  lives : Int
  invulnerable : ℚ
  deriving DecidableEq

/-- `interface Projectile extends GameEntity`.  For enemy projectiles the
source reuses `width`/`height` to store a velocity vector (or the homing
flag `-999`), exactly as the code does. -/
structure Projectile where
  x : ℚ
  y : ℚ
  active : Bool
  width : ℚ
  height : ℚ
  damage : ℚ
  speed : ℚ
  deriving DecidableEq

/-- `type: 'normal' | 'fast' | 'tank' | 'boss'`. -/
inductive EnemyType where
  | normal
  | fast
  | tank
  | boss
  deriving DecidableEq

/-- `movementPattern: 'straight' | 'sine' | 'dive' | 'spiral'` (set but
never branched on by the simulation). -/
inductive MovementPattern where
  | straight
  | sine
  | dive
  | spiral
  deriving DecidableEq

/-- `interface Enemy extends GameEntity`; the optional TS fields
(`vx?`, `vy?`, boss bookkeeping) are `Option`s. -/
structure Enemy where
  x : ℚ
  y : ℚ
  active : Bool
  width : ℚ
  height : ℚ
  health : ℚ
  maxHealth : ℚ
  rotation : ℚ
  scale : ℚ
  hue : ℚ
  type : EnemyType
  movementPattern : MovementPattern
  movementTimer : ℚ
  originalX : ℚ
  speed : ℚ
  vx : Option ℚ
  vy : Option ℚ
  phase : Option Int
  lastAttack : Option ℚ
  attackCooldown : Option ℚ
  moveTime : Option ℚ
  deriving DecidableEq

/-- `type: 'explosion' | 'spark' | 'trail' | 'text'`. -/
inductive ParticleType where
  | explosion
  | spark
  | trail
  | text
  deriving DecidableEq

/-- `interface Particle extends GameEntity`. -/
structure Particle where
  x : ℚ
  y : ℚ
  active : Bool
  vx : ℚ
  vy : ℚ
  life : ℚ
  maxLife : ℚ
  size : ℚ
  color : String
  type : ParticleType
  text : Option String
  deriving DecidableEq

/-- `type: 'multishot' | 'shield' | 'slowtime' | 'rapid' | 'health'`. -/
inductive PowerUpType where
  | multishot
  | shield
  | slowtime
  | rapid
  | health
  deriving DecidableEq

/-- `interface PowerUp extends GameEntity`. -/
structure PowerUp where
  x : ℚ
  y : ℚ
  active : Bool
  width : ℚ
  height : ℚ
  type : PowerUpType
  duration : ℚ
  rotation : ℚ
  deriving DecidableEq

/-- The `powerupEffects` record inside `GameState`. -/
structure PowerupEffects where
  multishot : ℚ
  shield : ℚ
  slowtime : ℚ
  rapid : ℚ
  deriving DecidableEq

/-- The React `GameState` (the `projectiles`/`enemies`/... arrays inside the
TS state object stay empty — the live entities sit in the pools — and the
`keys` map is only read by the separate movement interval, so neither is
carried here). -/
structure GameState where
  player : Player
  score : Int
  level : Int
  gameStarted : Bool
  gameOver : Bool
  gameWon : Bool
  lastShot : ℚ
  lastEnemySpawn : ℚ
  lastPowerupSpawn : ℚ
  screenShake : ℚ
  combo : Int
  comboTimer : ℚ
  multiplier : Int
  bossActive : Bool
  powerupEffects : PowerupEffects
  deriving DecidableEq

/-- The component's full mutable world: React state, the four module pools
(`projectilePoolRef` … `powerupPoolRef`), `highScoreRef`, and the single
`localStorage` entry `cyberDefenderHighScore`. -/
structure World where
  state : GameState
  projectilePool : List Projectile
  enemyPool : List Enemy
  particlePool : List Particle
  powerupPool : List PowerUp
  highScoreRef : Int
  storage : Option String
  deriving DecidableEq

/-- Oracle environment: `performance.now()` plus the irrational /
nondeterministic `Math` primitives.  Each `Math.random()` call site reads
`rand site idx` for a fixed site tag and a per-entity / per-iteration
index, so a run of the step is a pure function of the environment. -/
structure Env where
  now : ℚ
  sin : ℚ → ℚ
  cos : ℚ → ℚ
  sqrt : ℚ → ℚ
  pi : ℚ
  rand : Nat → Nat → ℚ

/-- JavaScript `a || b` on a possibly-`undefined` number: `undefined` and
`0` both fall through to the default. -/
def jsOrQ (v : Option ℚ) (d : ℚ) : ℚ :=
  match v with
  | none => d
  | some x => if x = 0 then d else x

/-- JavaScript `a || b` on a possibly-`undefined` integer. -/
def jsOrI (v : Option Int) (d : Int) : Int :=
  match v with
  | none => d
  | some x => if x = 0 then d else x

/-- An axis-aligned box, the shape `checkCollision` works on. -/
structure Rect where
  x : ℚ
  y : ℚ
  w : ℚ
  h : ℚ

def Player.rect (p : Player) : Rect := ⟨p.x, p.y, p.width, p.height⟩

def Projectile.rect (p : Projectile) : Rect := ⟨p.x, p.y, p.width, p.height⟩

def Enemy.rect (e : Enemy) : Rect := ⟨e.x, e.y, e.width, e.height⟩

def PowerUp.rect (p : PowerUp) : Rect := ⟨p.x, p.y, p.width, p.height⟩

/-- `checkCollision`: AABB overlap test (lines 137–139). -/
def checkCollision (a b : Rect) : Bool :=
  a.x < b.x + b.w && a.x + a.w > b.x && a.y < b.y + b.h && a.y + a.h > b.y

/-! ## Persistence shim -/

/-- Longest leading decimal-digit run, as a number; `none` when there is no
leading digit (JavaScript `NaN`). -/
def leadingDigits (cs : List Char) : Option Nat :=
  let ds := cs.takeWhile Char.isDigit
  if ds.isEmpty then none
  else some (ds.foldl (fun a c => a * 10 + (c.toNat - 48)) 0)

/-- JavaScript `parseInt(s)` restricted to base 10 (the code never stores a
`0x` string): skip leading whitespace, optional sign, then the longest
digit run; `none` models `NaN`. -/
def parseIntJS (s : String) : Option Int :=
  let cs := s.data.dropWhile Char.isWhitespace
  match cs with
  | '-' :: rest => (leadingDigits rest).map (fun n => -(n : Int))
  | '+' :: rest => (leadingDigits rest).map (fun n => (n : Int))
  | rest => (leadingDigits rest).map (fun n => (n : Int))

/-- JavaScript `s || '0'` for the `getItem` result: `null` and the empty
string are falsy. -/
def jsOrStr (v : Option String) (d : String) : String :=
  match v with
  | none => d
  | some s => if s = "" then d else s

/-- `getHighScore` (lines 141–143): `parseInt(localStorage.getItem(k) || '0')`
on the success path of the storage read. -/
def getHighScore (storage : Option String) : Option Int :=
  parseIntJS (jsOrStr storage "0")

/-- `getHighScore` with the storage read modelled fallibly.  The source has
no `try`/`catch`, so a throwing `getItem` propagates out of the function. -/
def getHighScoreChecked (read : Except Unit (Option String)) : Except Unit (Option Int) :=
  match read with
  | Except.error e => Except.error e
  | Except.ok v => Except.ok (parseIntJS (jsOrStr v "0"))

/-- `saveHighScore` (lines 145–147): an unconditional
`localStorage.setItem(k, score.toString())`. -/
def saveHighScore (_storage : Option String) (score : Int) : Option String :=
  some (toString score)

/-- The guard the three game-over sites wrap around `saveHighScore`:
`if (newState.score > highScoreRef.current) { saveHighScore(score); highScoreRef.current = score; }`.
Returns the new `(highScoreRef, storage)` pair. -/
def persistIfBeaten (score : Int) (ref : Int) (storage : Option String) :
    Int × Option String :=
  if score > ref then (score, saveHighScore storage score) else (ref, storage)

/-! ## Entity pools -/

/-- `createProjectilePool`: 50 inactive slots. -/
def createProjectilePool : List Projectile :=
  List.replicate 50
    { x := 0, y := 0, active := false, width := 4, height := 8, damage := 1,
      speed := PROJECTILE_SPEED }

/-- `createEnemyPool`: 30 inactive slots. -/
def createEnemyPool : List Enemy :=
  List.replicate 30
    { x := 0, y := 0, active := false, width := 30, height := 30, health := 1,
      maxHealth := 1, rotation := 0, scale := 1, hue := 0, type := EnemyType.normal,
      movementPattern := MovementPattern.straight, movementTimer := 0,
      originalX := 0, speed := ENEMY_SPEED, vx := none, vy := none, phase := none,
      lastAttack := none, attackCooldown := none, moveTime := none }

/-- `createParticlePool`: 200 inactive slots. -/
def createParticlePool : List Particle :=
  List.replicate 200
    { x := 0, y := 0, active := false, vx := 0, vy := 0, life := 0, maxLife := 1,
      size := 2, color := "#ffffff", type := ParticleType.explosion, text := none }

/-- `createPowerUpPool`: 10 inactive slots. -/
def createPowerUpPool : List PowerUp :=
  List.replicate 10
    { x := 0, y := 0, active := false, width := 18, height := 18,
      type := PowerUpType.multishot, duration := 0, rotation := 0 }

/-- `pool.find(p => !p.active)` followed by caller initialization of the
found slot: rewrite the first slot `isActive` rejects with `f`, passing the
slot's pool index (used to key `Math.random` oracles); a saturated pool is
left unchanged. -/
def acquireSlotIdx {α : Type} (isActive : α → Bool) (f : Nat → α → α) :
    Nat → List α → List α
  | _, [] => []
  | i, p :: rest =>
    if isActive p then p :: acquireSlotIdx isActive f (i + 1) rest
    else f i p :: rest

/-- `createParticle` (lines 413–433).  Oracle sites 90–92 feed the three
`Math.random()` calls, keyed by the slot the particle lands in. -/
def createParticle (env : Env) (x y : ℚ) (ty : ParticleType) (color : String)
    (text : Option String) (pool : List Particle) : List Particle :=
  acquireSlotIdx (fun p => p.active)
    (fun i p =>
      let life : ℚ := if ty = ParticleType.text then 2000 else 1000
      let size : ℚ :=
        if ty = ParticleType.text then 24 else env.rand 90 i * 6 + 2
      let vx : ℚ :=
        if ty = ParticleType.text then 0 else (env.rand 91 i - 0.5) * 8
      let vy : ℚ :=
        if ty = ParticleType.text then -0.5 else (env.rand 92 i - 0.5) * 8
      { p with active := true, x := x, y := y, type := ty, color := color,
               text := text, life := life, maxLife := life, size := size,
               vx := vx, vy := vy })
    0 pool

/-- `spawnEnemy` (lines 436–479).  `types[Math.floor(Math.random()*3)]`
over `['normal','fast','tank']`; oracle sites 30–33. -/
def spawnEnemy (env : Env) (pool : List Enemy) : List Enemy :=
  acquireSlotIdx (fun e => e.active)
    (fun i e =>
      let x := env.rand 30 i * (CANVAS_WIDTH - 30)
      let tIdx : Int := ⌊env.rand 31 i * 3⌋
      let ty : EnemyType :=
        if tIdx = 0 then EnemyType.normal
        else if tIdx = 1 then EnemyType.fast
        else EnemyType.tank
      let e := { e with active := true, x := x, originalX := x, y := -30,
                        movementTimer := 0, type := ty, rotation := 0, scale := 1,
                        hue := env.rand 32 i * 360, moveTime := some 0 }
      match ty with
      | EnemyType.fast =>
        { e with health := 1, maxHealth := 1, speed := ENEMY_SPEED * 1.2,
                 width := 35, height := 35,
                 vx := some ((env.rand 33 i - 0.5) * 2), vy := some 1.2 }
      | EnemyType.tank =>
        { e with health := 2, maxHealth := 2, speed := ENEMY_SPEED * 0.8,
                 width := 45, height := 45, vx := some 0, vy := some 0.6 }
      | _ =>
        { e with health := 1, maxHealth := 1, speed := ENEMY_SPEED,
                 width := 40, height := 40, vx := some 0, vy := some 1.0 })
    0 pool

/-- The slot initialization `spawnBoss` performs (lines 482–503). -/
def bossInit (e : Enemy) : Enemy :=
  { e with active := true, type := EnemyType.boss, x := HALF_CANVAS_WIDTH - 50,
           originalX := HALF_CANVAS_WIDTH - 50, y := 50, width := 100, height := 100,
           health := 30, maxHealth := 30, speed := ENEMY_SPEED * 0.5,
           movementTimer := 0, moveTime := some 0, hue := 0, scale := 1.5,
           phase := some 1, lastAttack := some 0, attackCooldown := some 2000,
           vx := some 0, vy := some 0 }

/-- `spawnBoss` (lines 482–505): initialize the first free enemy slot as the
boss and announce it with a text particle. -/
def spawnBoss (env : Env) (enemies : List Enemy) (particles : List Particle) :
    List Enemy × List Particle :=
  if (enemies.filter (fun e => !e.active)).isEmpty then (enemies, particles)
  else
    (acquireSlotIdx (fun e => e.active) (fun _ e => bossInit e) 0 enemies,
     createParticle env (HALF_CANVAS_WIDTH - 50 + 50) (50 + 50) ParticleType.text
       "#ff0000" (some "NIGHTMARE AWAKENS!") particles)

/-- `spawnPowerUp` (lines 508–519); oracle sites 40–41. -/
def spawnPowerUp (env : Env) (pool : List PowerUp) : List PowerUp :=
  acquireSlotIdx (fun p => p.active)
    (fun i p =>
      let tIdx : Int := ⌊env.rand 40 i * 5⌋
      let ty : PowerUpType :=
        if tIdx = 0 then PowerUpType.multishot
        else if tIdx = 1 then PowerUpType.shield
        else if tIdx = 2 then PowerUpType.slowtime
        else if tIdx = 3 then PowerUpType.rapid
        else PowerUpType.health
      { p with active := true, type := ty, x := env.rand 41 i * (CANVAS_WIDTH - 18),
               y := -18, rotation := 0, duration := 5000 })
    0 pool

/-- `shoot` (lines 522–545): rate-limited by `lastShot`; 1 or 3 projectiles
depending on `multishot`; updates `lastShot` even when the pool is
saturated and nothing was fired. -/
def shoot (currentTime : ℚ) (w : World) : World :=
  let cooldown : ℚ :=
    if w.state.powerupEffects.rapid > 0 then SHOT_COOLDOWN / 2 else SHOT_COOLDOWN
  if currentTime - w.state.lastShot < cooldown then w
  else
    let angles : List ℚ :=
      if w.state.powerupEffects.multishot > 0 then [-0.3, 0, 0.3] else [0]
    let pool := angles.foldl
      (fun pool a =>
        acquireSlotIdx (fun p => p.active)
          (fun _ p =>
            { p with active := true,
                     x := w.state.player.x + w.state.player.width / 2 - 2,
                     y := w.state.player.y, width := 4, height := 10, damage := 1,
                     speed := PROJECTILE_SPEED + a * 2 })
          0 pool)
      w.projectilePool
    { w with projectilePool := pool,
             state := { w.state with lastShot := currentTime } }

/-! ## Boss attacks and enemy movement -/

/-- Acquire one projectile slot and overwrite the fields an enemy attack
sets (`active`, position, `damage`, `speed`, and the velocity-encoding
`width`/`height`). -/
def fireEnemyProjectile (x y damage speed w h : ℚ) (pool : List Projectile) :
    List Projectile :=
  acquireSlotIdx (fun p => p.active)
    (fun _ p =>
      { p with active := true, x := x, y := y, damage := damage, speed := speed,
               width := w, height := h })
    0 pool

/-- Phase-1 spray (lines 215–231): five projectiles fanned over
`(i - 2) * 0.3` radians. -/
def bossAttackSpray (env : Env) (boss : Enemy) (pool : List Projectile) :
    List Projectile :=
  (List.range 5).foldl
    (fun pool i =>
      let angle : ℚ := ((i : ℚ) - 2) * 0.3
      fireEnemyProjectile (boss.x + boss.width / 2) (boss.y + boss.height) 1 3
        (env.sin angle * 3) (env.cos angle * 3) pool)
    pool

/-- Phase-2 homing volley (lines 234–248): three trackers flagged by
`width = -999`. -/
def bossAttackHoming (boss : Enemy) (pool : List Projectile) : List Projectile :=
  (List.range 3).foldl
    (fun pool i =>
      fireEnemyProjectile (boss.x + boss.width / 2 + ((i : ℚ) - 1) * 30)
        (boss.y + boss.height) 1 2 (-999) 2 pool)
    pool

/-- The x positions of the laser sweep `for (x = 50; x < CANVAS_WIDTH - 50;
x += 40)`: 50, 90, …, 730 — eighteen columns. -/
def sweepColumns : List ℚ := (List.range 18).map (fun i => 50 + 40 * (i : ℚ))

/-- Phase-2 laser sweep (lines 249–263): a line of straight downward
projectiles across the screen. -/
def bossAttackSweep (boss : Enemy) (pool : List Projectile) : List Projectile :=
  sweepColumns.foldl
    (fun pool x =>
      fireEnemyProjectile x (boss.y + boss.height + 20) 1 4 0 4 pool)
    pool

/-- Phase-3 spiral (lines 267–281): eight projectiles at angles
`i/8 * 2π`. -/
def bossAttackSpiral (env : Env) (boss : Enemy) (pool : List Projectile) :
    List Projectile :=
  (List.range 8).foldl
    (fun pool i =>
      let angle : ℚ := ((i : ℚ) / 8) * env.pi * 2
      fireEnemyProjectile (boss.x + boss.width / 2) (boss.y + boss.height) 1 2.5
        (env.cos angle * 2.5) (env.sin angle * 2.5) pool)
    pool

/-- Phase-3 rain (lines 282–295): six projectiles at random x with random
drift; oracle sites 1–3. -/
def bossAttackRain (env : Env) (boss : Enemy) (pool : List Projectile) :
    List Projectile :=
  (List.range 6).foldl
    (fun pool i =>
      let speed := 3 + env.rand 2 i * 2
      fireEnemyProjectile (env.rand 1 i * (CANVAS_WIDTH - 100) + 50) boss.y 1 speed
        ((env.rand 3 i - 0.5) * 2) speed pool)
    pool

/-- Phase-3 targeted burst (lines 296–316): four projectiles aimed at the
player's current centre. -/
def bossAttackTargeted (env : Env) (player : Player) (boss : Enemy)
    (pool : List Projectile) : List Projectile :=
  let dx := player.x + player.width / 2 - (boss.x + boss.width / 2)
  let dy := player.y + player.height / 2 - (boss.y + boss.height)
  let distance := env.sqrt (dx * dx + dy * dy)
  (List.range 4).foldl
    (fun pool i =>
      fireEnemyProjectile (boss.x + boss.width / 2 + ((i : ℚ) - 1.5) * 20)
        (boss.y + boss.height) 1 3.5 (dx / distance * 3.5) (dy / distance * 3.5)
        pool)
    pool

/-- `createBossAttack` (lines 207–322): pattern selected by boss phase and
`Math.floor(Math.random() * 3)` (oracle site 0, keyed by the boss's pool
index).  The `setState` raising `screenShake` is queued by React and
applied after the step; the caller counts it. -/
def createBossAttack (env : Env) (ei : Nat) (player : Player) (boss : Enemy)
    (pool : List Projectile) : List Projectile :=
  let phase := jsOrI boss.phase 1
  let attackType : Int := ⌊env.rand 0 ei * 3⌋
  if phase = 1 then bossAttackSpray env boss pool
  else if phase = 2 then
    if attackType = 0 then bossAttackHoming boss pool
    else bossAttackSweep boss pool
  else
    if attackType = 0 then bossAttackSpiral env boss pool
    else if attackType = 1 then bossAttackRain env boss pool
    else bossAttackTargeted env player boss pool

/-- `updateEnemyMovement` (lines 325–410) for one enemy at pool index `ei`,
given the movement `deltaTime` (already multiplied by the slow-time factor).
Returns the moved enemy, the projectile pool (bosses may fire), and the
number of queued boss-attack screen-shake updates (0 or 1).  Oracle sites:
4–6 for the fast type, 7–8 for the normal type. -/
def updateEnemyMovement (env : Env) (ei : Nat) (player : Player) (dt : ℚ)
    (e : Enemy) (projPool : List Projectile) : Enemy × List Projectile × Nat :=
  let mt : ℚ := jsOrQ e.moveTime 0 + dt * 0.001
  let e := { e with movementTimer := e.movementTimer + dt, moveTime := some mt }
  match e.type with
  | EnemyType.boss =>
    let baseX := CANVAS_WIDTH / 2 - e.width / 2
    let e := { e with x := baseX + env.sin (mt * 1.5) * 120,
                      y := max 30 (min e.y 80) }
    let lastAttack := jsOrQ e.lastAttack 0
    let cooldown := jsOrQ e.attackCooldown 2000
    let e := { e with lastAttack := some lastAttack, attackCooldown := some cooldown }
    if env.now - lastAttack > cooldown then
      let pool' := createBossAttack env ei player e projPool
      let phase : Int := ⌊(1 - e.health / e.maxHealth) * 3⌋ + 1
      ({ e with lastAttack := some env.now, phase := some phase,
                attackCooldown := some (max 800 (2500 - (phase : ℚ) * 300)) },
       pool', 1)
    else (e, projPool, 0)
  | EnemyType.fast =>
    let vx0 := jsOrQ e.vx ((env.rand 4 ei - 0.5) * 2)
    let vy0 := jsOrQ e.vy 1.2
    let vx1 := if env.rand 5 ei < 0.01 then (env.rand 6 ei - 0.5) * 2 else vx0
    let x1 := e.x + env.sin (mt * 6) * 1.5 + vx1 * 0.5
    let y1 := e.y + vy0
    let (x2, vx2) := if x1 ≤ 0 then ((0 : ℚ), |vx1|) else (x1, vx1)
    let (x3, vx3) :=
      if x2 ≥ CANVAS_WIDTH - e.width then (CANVAS_WIDTH - e.width, -|vx2|)
      else (x2, vx2)
    ({ e with x := x3, y := y1, vx := some vx3, vy := some vy0 }, projPool, 0)
  | EnemyType.tank =>
    let vy0 := jsOrQ e.vy 0.6
    let x1 := e.x + env.sin (mt * 0.8) * 1.0 + env.cos (mt * 0.3) * 0.5
    let x2 := max 0 (min (CANVAS_WIDTH - e.width) x1)
    ({ e with x := x2, y := e.y + vy0, vy := some vy0 }, projPool, 0)
  | EnemyType.normal =>
    let vy0 := jsOrQ e.vy 1.0
    let x0 := if env.rand 7 ei < 0.02 then e.x + (env.rand 8 ei - 0.5) * 15 else e.x
    let glitchCycle := env.sin (mt * 10)
    let y1 := e.y +
      (if glitchCycle > 0.7 then vy0 * 1.8
       else if glitchCycle < -0.7 then vy0 * 0.1
       else vy0 * 0.8)
    let x1 := x0 + env.sin (mt * 3) * 0.8
    let x2 := max 0 (min (CANVAS_WIDTH - e.width) x1)
    ({ e with x := x2, y := y1, vy := some vy0 }, projPool, 0)

/-! ## Simulation step phases (`updateGame`, lines 589–914) -/

/-- Power-up effect countdown (lines 599–604): each positive effect timer
loses `deltaTime`. -/
def decayEffects (dt : ℚ) (e : PowerupEffects) : PowerupEffects :=
  { multishot := if e.multishot > 0 then e.multishot - dt else e.multishot,
    shield := if e.shield > 0 then e.shield - dt else e.shield,
    slowtime := if e.slowtime > 0 then e.slowtime - dt else e.slowtime,
    rapid := if e.rapid > 0 then e.rapid - dt else e.rapid }

/-- Invulnerability countdown (lines 606–609). -/
def decayInvulnerable (dt : ℚ) (p : Player) : Player :=
  if p.invulnerable > 0 then { p with invulnerable := p.invulnerable - dt } else p

/-- Combo decay (lines 611–617): the counter resets when the timer crosses
zero. -/
def decayCombo (dt : ℚ) (st : GameState) : GameState :=
  if st.comboTimer > 0 then
    let t := st.comboTimer - dt
    if t ≤ 0 then { st with comboTimer := t, combo := 0 }
    else { st with comboTimer := t }
  else st

/-- Screen-shake decay (lines 619–622). -/
def decayShake (dt : ℚ) (st : GameState) : GameState :=
  if st.screenShake > 0 then { st with screenShake := st.screenShake - dt * 0.01 }
  else st

/-- The convention distinguishing enemy projectiles in the shared pool
(line 629): `damage === 1 && (width !== 4 || height !== 10)`. -/
def isEnemyProjectile (p : Projectile) : Bool :=
  p.damage = 1 && (p.width ≠ 4 || p.height ≠ 10)

/-- Projectile advance (lines 624–658): enemy projectiles follow their
stored velocity (homing ones steer toward the player), player projectiles
fly straight up; both despawn off screen. -/
def moveProjectile (env : Env) (dt : ℚ) (player : Player) (p : Projectile) :
    Projectile :=
  if !p.active then p
  else if isEnemyProjectile p then
    let p :=
      if p.width = -999 then
        let dx := player.x + player.width / 2 - p.x
        let dy := player.y + player.height / 2 - p.y
        let distance := env.sqrt (dx * dx + dy * dy)
        if distance > 0 then
          { p with x := p.x + dx / distance * p.height * dt * 0.02,
                   y := p.y + dy / distance * p.height * dt * 0.02 + 0.5 }
        else p
      else
        { p with x := p.x + p.width * dt * 0.02, y := p.y + p.height * dt * 0.02 }
    if p.y > CANVAS_HEIGHT + 50 || p.x < -50 || p.x > CANVAS_WIDTH + 50 then
      { p with active := false }
    else p
  else
    let p := { p with y := p.y - p.speed * dt * 0.02 }
    if p.y < -10 then { p with active := false } else p

/-- The block the three player-hit sites share (lines 669–680, 788–798,
826–836): decrement lives, grant the 2000 ms invulnerability window, spike
the shake, and on the last life set game over and persist a beaten high
score. -/
def loseLife (shake : ℚ) (st : GameState) (ref : Int) (storage : Option String) :
    GameState × Int × Option String :=
  let lives := st.player.lives - 1
  let st := { st with player := { st.player with lives := lives, invulnerable := 2000 },
                      screenShake := shake }
  if lives ≤ 0 then
    let st := { st with gameOver := true }
    let (ref', storage') := persistIfBeaten st.score ref storage
    (st, ref', storage')
  else (st, ref, storage)

/-- One iteration of the enemy update loop (lines 661–683): move the enemy
(bosses may fire), then the bottom-edge check, whose invulnerability guard
is re-read per enemy. -/
def enemyStep (env : Env) (dtm : ℚ) (acc : World × Nat) (ei : Nat) : World × Nat :=
  let (w, bumps) := acc
  match w.enemyPool[ei]? with
  | none => acc
  | some e =>
    if !e.active then acc
    else
      let (e1, projPool', b) :=
        updateEnemyMovement env ei w.state.player dtm e w.projectilePool
      if e1.y > CANVAS_HEIGHT then
        let w := { w with enemyPool := w.enemyPool.set ei { e1 with active := false },
                          projectilePool := projPool' }
        if w.state.player.invulnerable ≤ (0 : ℚ) then
          let (st, ref, storage) := loseLife 20 w.state w.highScoreRef w.storage
          ({ w with state := st, highScoreRef := ref, storage := storage },
           bumps + b)
        else (w, bumps + b)
      else
        ({ w with enemyPool := w.enemyPool.set ei e1, projectilePool := projPool' },
         bumps + b)

/-- The whole enemy update loop; `dtm` is `deltaTime * timeMultiplier`. -/
def enemyPass (env : Env) (dtm : ℚ) (w : World) : World × Nat :=
  (List.range w.enemyPool.length).foldl (enemyStep env dtm) (w, 0)

/-- Power-up fall and despawn (lines 686–691). -/
def movePowerUp (dt : ℚ) (p : PowerUp) : PowerUp :=
  if !p.active then p
  else
    let p := { p with y := p.y + 2 * dt * 0.02, rotation := p.rotation + dt * 0.003 }
    if p.y > CANVAS_HEIGHT + 25 then { p with active := false } else p

/-- Particle advance and expiry (lines 694–700). -/
def moveParticle (dt : ℚ) (p : Particle) : Particle :=
  if !p.active then p
  else
    let p := { p with x := p.x + p.vx * dt * 0.02, y := p.y + p.vy * dt * 0.02,
                      life := p.life - dt }
    if p.life ≤ 0 then { p with active := false } else p

/-- Base kill score by enemy type (lines 722–724). -/
def basePoints (ty : EnemyType) : Int :=
  match ty with
  | EnemyType.boss => 1000
  | EnemyType.tank => 30
  | EnemyType.fast => 20
  | EnemyType.normal => 10

/-- Enemy-death scoring (lines 720–773): combo bump and 3000 ms combo
window, multiplier and combo banner past five, score update, explosion
burst, screen shake, and the boss-death win transition.  Oracle sites
20–21 feed the explosion jitter. -/
def applyKillScore (env : Env) (e : Enemy) (st : GameState)
    (particles : List Particle) : GameState × List Particle :=
  let combo := st.combo + 1
  let st := { st with combo := combo, comboTimer := 3000 }
  let points := basePoints e.type
  let (points, st, particles) :=
    if combo > 5 then
      let m := min 5 (combo / 5 + 1)
      (points * m, { st with multiplier := m },
       createParticle env (e.x + e.width / 2) e.y ParticleType.text "#00ff00"
         (some (toString combo ++ "x COMBO!")) particles)
    else (points, st, particles)
  let st := { st with score := st.score + points }
  let n : Nat := if e.type = EnemyType.boss then 40 else 16
  let particles := (List.range n).foldl
    (fun ps i =>
      createParticle env (e.x + e.width / 2 + (env.rand 20 i - 0.5) * e.width)
        (e.y + e.height / 2 + (env.rand 21 i - 0.5) * e.height)
        ParticleType.explosion
        (if e.type = EnemyType.boss then "#ff0000" else "#cc0000") none ps)
    particles
  let st := { st with screenShake := if e.type = EnemyType.boss then 30 else 8 }
  if e.type = EnemyType.boss then
    ({ st with screenShake := 30, bossActive := false, gameWon := true },
     createParticle env HALF_CANVAS_WIDTH HALF_CANVAS_HEIGHT ParticleType.text
       "#00ff00" (some "CYBER GUARDIAN ACTIVATED!") particles)
  else (st, particles)

/-- Inner loop of "Collision: Projectiles vs Enemies" (lines 706–776) for a
fixed projectile: the source deactivates the projectile on a hit but keeps
iterating without re-reading its `active` flag, so one projectile can hit
several enemies in the same pass. -/
def projEnemyInner (env : Env)
    (acc : Projectile × List Enemy × GameState × List Particle) (i : Nat) :
    Projectile × List Enemy × GameState × List Particle :=
  let (p, enemies, st, particles) := acc
  match enemies[i]? with
  | none => acc
  | some e =>
    if !e.active then acc
    else if checkCollision p.rect e.rect then
      let p := { p with active := false }
      let e := { e with health := e.health - p.damage }
      let particles := (List.range 5).foldl
        (fun ps _ =>
          createParticle env (e.x + e.width / 2) (e.y + e.height / 2)
            ParticleType.spark "#f07e41" none ps)
        particles
      if e.health ≤ (0 : ℚ) then
        let e := { e with active := false }
        let (st, particles) := applyKillScore env e st particles
        (p, enemies.set i e, st, particles)
      else (p, enemies.set i e, st, particles)
    else acc

/-- Outer loop of "Collision: Projectiles vs Enemies" (lines 702–777). -/
def projEnemyOuter (env : Env)
    (acc : List Projectile × List Enemy × GameState × List Particle) (j : Nat) :
    List Projectile × List Enemy × GameState × List Particle :=
  let (projs, enemies, st, particles) := acc
  match projs[j]? with
  | none => acc
  | some p =>
    if !p.active then acc
    else
      let (p', enemies', st', particles') :=
        (List.range enemies.length).foldl (projEnemyInner env)
          (p, enemies, st, particles)
      (projs.set j p', enemies', st', particles')

/-- The whole projectile-versus-enemy collision pass. -/
def projEnemyPass (env : Env) (w : World) : World :=
  let (projs, enemies, st, particles) :=
    (List.range w.projectilePool.length).foldl (projEnemyOuter env)
      (w.projectilePool, w.enemyPool, w.state, w.particlePool)
  { w with projectilePool := projs, enemyPool := enemies, state := st,
           particlePool := particles }

/-- One iteration of "Collision: Player vs Enemies" (lines 781–806): the
enemy is consumed, the shield check is per enemy, but the invulnerability
guard was evaluated once for the whole pass by the caller. -/
def playerEnemyHit (env : Env) (w : World) (i : Nat) : World :=
  match w.enemyPool[i]? with
  | none => w
  | some e =>
    if !e.active then w
    else if checkCollision w.state.player.rect e.rect then
      let w := { w with enemyPool := w.enemyPool.set i { e with active := false } }
      let w :=
        if w.state.powerupEffects.shield ≤ (0 : ℚ) then
          let (st, ref, storage) := loseLife 20 w.state w.highScoreRef w.storage
          { w with state := st, highScoreRef := ref, storage := storage }
        else w
      let particles := (List.range 10).foldl
        (fun ps _ =>
          createParticle env (e.x + e.width / 2) (e.y + e.height / 2)
            ParticleType.explosion "#ff0000" none ps)
        w.particlePool
      { w with particlePool := particles }
    else w

/-- "Collision: Player vs Enemies" (lines 779–807): the invulnerability
guard is hoisted outside the loop. -/
def playerEnemiesPass (env : Env) (w : World) : World :=
  if w.state.player.invulnerable ≤ 0 then
    (List.range w.enemyPool.length).foldl (playerEnemyHit env) w
  else w

/-- The ad-hoc small-projectile overlap test of lines 817–820. -/
def enemyProjHitsPlayer (p : Projectile) (player : Player) : Bool :=
  p.x < player.x + player.width && p.x + 6 > player.x &&
    p.y < player.y + player.height && p.y + 6 > player.y

/-- One iteration of "Collision: Player vs Enemy Projectiles"
(lines 811–848). -/
def playerProjHit (env : Env) (w : World) (j : Nat) : World :=
  match w.projectilePool[j]? with
  | none => w
  | some p =>
    if !p.active then w
    else if isEnemyProjectile p then
      if enemyProjHitsPlayer p w.state.player then
        let w := { w with projectilePool :=
          w.projectilePool.set j { p with active := false } }
        let w :=
          if w.state.powerupEffects.shield ≤ (0 : ℚ) then
            let (st, ref, storage) := loseLife 15 w.state w.highScoreRef w.storage
            { w with state := st, highScoreRef := ref, storage := storage }
          else
            let particles :=
              createParticle env p.x p.y ParticleType.spark "#0088ff" none
                w.particlePool
            { w with particlePool := particles }
        let particles := (List.range 6).foldl
          (fun ps _ =>
            createParticle env p.x p.y ParticleType.spark "#ff4444" none ps)
          w.particlePool
        { w with particlePool := particles }
      else w
    else w

/-- "Collision: Player vs Enemy Projectiles" (lines 809–849): the
invulnerability guard is hoisted outside the loop here too. -/
def playerProjPass (env : Env) (w : World) : World :=
  if w.state.player.invulnerable ≤ 0 then
    (List.range w.projectilePool.length).foldl (playerProjHit env) w
  else w

/-- Effect granted by a collected power-up (lines 858–879). -/
def applyPowerUp (ty : PowerUpType) (st : GameState) : GameState :=
  match ty with
  | PowerUpType.multishot =>
    { st with powerupEffects := { st.powerupEffects with multishot := 10000 } }
  | PowerUpType.shield =>
    { st with powerupEffects := { st.powerupEffects with shield := 8000 } }
  | PowerUpType.slowtime =>
    { st with powerupEffects := { st.powerupEffects with slowtime := 6000 } }
  | PowerUpType.rapid =>
    { st with powerupEffects := { st.powerupEffects with rapid := 8000 } }
  | PowerUpType.health =>
    { st with player := { st.player with lives := min 5 (st.player.lives + 1) } }

/-- Confirmation banner text per power-up type (lines 858–879). -/
def powerUpBanner (ty : PowerUpType) : String × String :=
  match ty with
  | PowerUpType.multishot => ("#00ff00", "MULTISHOT!")
  | PowerUpType.shield => ("#0088ff", "SHIELD!")
  | PowerUpType.slowtime => ("#ff00ff", "SLOW TIME!")
  | PowerUpType.rapid => ("#ffff00", "RAPID FIRE!")
  | PowerUpType.health => ("#ff0088", "+1 LIFE!")

/-- One iteration of "Collision: Player vs Power-ups" (lines 852–881). -/
def powerUpHit (env : Env) (w : World) (i : Nat) : World :=
  match w.powerupPool[i]? with
  | none => w
  | some p =>
    if !p.active then w
    else if checkCollision w.state.player.rect p.rect then
      let (color, msg) := powerUpBanner p.type
      { w with powerupPool := w.powerupPool.set i { p with active := false },
               state := applyPowerUp p.type w.state,
               particlePool :=
                 createParticle env p.x p.y ParticleType.text color (some msg)
                   w.particlePool }
    else w

/-- "Collision: Player vs Power-ups" (lines 851–881). -/
def powerUpPass (env : Env) (w : World) : World :=
  (List.range w.powerupPool.length).foldl (powerUpHit env) w

/-- The level-scaled spawn interval (line 884). -/
def spawnRate (level : Int) : ℚ :=
  max 1500 (ENEMY_SPAWN_INTERVAL - (level : ℚ) * 200)

/-- `enemyPoolRef.current.filter(e => e.active).length`. -/
def countActiveEnemies (pool : List Enemy) : Nat :=
  (pool.filter (fun e => e.active)).length

/-- Enemy spawning and boss gating (lines 883–898): at level 5 with an
empty arena a boss spawns and `bossActive` latches; regular spawns happen
only while no boss is active; an active boss suppresses spawning entirely
(the spawn timestamp is deliberately left alone). -/
def spawnPhase (env : Env) (w : World) : World :=
  if env.now - w.state.lastEnemySpawn > spawnRate w.state.level then
    if w.state.level ≥ BOSS_SPAWN_LEVEL ∧ w.state.bossActive = false ∧
        countActiveEnemies w.enemyPool = 0 then
      let (enemies, particles) := spawnBoss env w.enemyPool w.particlePool
      { w with enemyPool := enemies, particlePool := particles,
               state := { w.state with bossActive := true,
                                       lastEnemySpawn := env.now } }
    else if w.state.bossActive = false then
      { w with enemyPool := spawnEnemy env w.enemyPool,
               state := { w.state with lastEnemySpawn := env.now } }
    else w
  else w

/-- Power-up spawning every 8000 ms (lines 901–904). -/
def powerUpSpawnPhase (env : Env) (w : World) : World :=
  if env.now - w.state.lastPowerupSpawn > 8000 then
    { w with powerupPool := spawnPowerUp env w.powerupPool,
             state := { w.state with lastPowerupSpawn := env.now } }
  else w

/-- Level progression (lines 907–910). -/
def levelPhase (env : Env) (w : World) : World :=
  if w.state.score > w.state.level * 200 then
    { w with state := { w.state with level := w.state.level + 1 },
             particlePool :=
               createParticle env HALF_CANVAS_WIDTH 100 ParticleType.text "#f07e41"
                 (some ("LEVEL " ++ toString (w.state.level + 1) ++ "!"))
                 w.particlePool }
  else w

/-- The queued `setState` calls `createBossAttack` issued (line 320), which
React applies after the updater returns: `k` times
`screenShake := min (screenShake + 3) 10`. -/
def applyBossShake (k : Nat) (st : GameState) : GameState :=
  match k with
  | 0 => st
  | Nat.succ k =>
    applyBossShake k { st with screenShake := min (st.screenShake + 3) 10 }

/-- `const timeMultiplier = prevState.powerupEffects.slowtime > 0 ? 0.3 : 1`
(line 594), read from the state as it was when the step began. -/
def timeMultiplier (st : GameState) : ℚ :=
  if st.powerupEffects.slowtime > 0 then 0.3 else 1

/-- The four timer decays at the top of the step (lines 599–622). -/
def decayPhase (dt : ℚ) (w : World) : World :=
  let st := { w.state with powerupEffects := decayEffects dt w.state.powerupEffects }
  let st := { st with player := decayInvulnerable dt st.player }
  let st := decayCombo dt st
  let st := decayShake dt st
  { w with state := st }

/-- Projectile movement over the shared pool (lines 624–658). -/
def projMovePhase (env : Env) (dt : ℚ) (w : World) : World :=
  { w with projectilePool :=
      w.projectilePool.map (moveProjectile env dt w.state.player) }

/-- Power-up fall (lines 686–691). -/
def powerUpMovePhase (dt : ℚ) (w : World) : World :=
  { w with powerupPool := w.powerupPool.map (movePowerUp dt) }

/-- Particle advance (lines 694–700). -/
def particleMovePhase (dt : ℚ) (w : World) : World :=
  { w with particlePool := w.particlePool.map (moveParticle dt) }

/-- `updateGame` (lines 589–914): one simulation step.  Terminal or
not-started states return unchanged; otherwise the phases run in source
order, and the boss-attack shake updates queued during the step are applied
last. -/
def tailChain (env : Env) (dt : ℚ) (w1 : World) : World :=
  levelPhase env (powerUpSpawnPhase env (spawnPhase env (powerUpPass env
    (playerProjPass env (playerEnemiesPass env (projEnemyPass env
      (particleMovePhase dt (powerUpMovePhase dt w1))))))))

def updateGame (env : Env) (dt : ℚ) (w : World) : World :=
  if !w.state.gameStarted || w.state.gameOver || w.state.gameWon then w
  else
    let (w1, bumps) :=
      enemyPass env (dt * timeMultiplier w.state)
        (projMovePhase env dt (decayPhase dt w))
    let w2 := tailChain env dt w1
    { w2 with state := applyBossShake bumps w2.state }

/-- The freshly-initialized player (lines 165–168 and 556–559). -/
def initialPlayer : Player :=
  { x := HALF_CANVAS_WIDTH - 15, y := CANVAS_HEIGHT - 50, active := true,
    width := 30, height := 30, lives := 3, invulnerable := 0 }

/-- The freshly-initialized React state (lines 164–194, identical to the
one `resetGame` installs at lines 555–585). -/
def initialState : GameState :=
  { player := initialPlayer, score := 0, level := 1, gameStarted := false,
    gameOver := false, gameWon := false, lastShot := 0, lastEnemySpawn := 0,
    lastPowerupSpawn := 0, screenShake := 0, combo := 0, comboTimer := 0,
    multiplier := 1, bossActive := false,
    powerupEffects := { multishot := 0, shield := 0, slowtime := 0, rapid := 0 } }

/-- `resetGame` (lines 548–586): deactivate every pool slot and reinstall
the initial state; the high-score ref and storage survive. -/
def resetGame (w : World) : World :=
  { w with state := initialState,
           projectilePool := w.projectilePool.map (fun p => { p with active := false }),
           enemyPool := w.enemyPool.map (fun e => { e with active := false }),
           particlePool := w.particlePool.map (fun p => { p with active := false }),
           powerupPool := w.powerupPool.map (fun p => { p with active := false }) }

/-- The world at mount: fresh pools, initial state, high score loaded from
storage (`NaN`, from a corrupt entry, is modelled by `getD 0` here; the
claims about corrupt entries target `getHighScore` itself). -/
def initialWorld (storage : Option String) : World :=
  { state := initialState, projectilePool := createProjectilePool,
    enemyPool := createEnemyPool, particlePool := createParticlePool,
    powerupPool := createPowerUpPool,
    highScoreRef := (getHighScore storage).getD 0, storage := storage }

/-! ## Concrete inputs used by counterexamples and witnesses -/

/-- A fixed oracle environment for concrete runs: the clock reads 0 and all
`Math` oracles return 0 (an admissible reading of the nondeterministic
primitives; `Math.random() = 0` is in range). -/
def env0 : Env :=
  { now := 0, sin := fun _ => 0, cos := fun _ => 0, sqrt := fun _ => 0,
    pi := 3.14159, rand := fun _ _ => 0 }

/-- The inactive slot the enemy pool is filled with. -/
def baseEnemy : Enemy :=
  { x := 0, y := 0, active := false, width := 30, height := 30, health := 1,
    maxHealth := 1, rotation := 0, scale := 1, hue := 0, type := EnemyType.normal,
    movementPattern := MovementPattern.straight, movementTimer := 0,
    originalX := 0, speed := ENEMY_SPEED, vx := none, vy := none, phase := none,
    lastAttack := none, attackCooldown := none, moveTime := none }

/-- The inactive slot the projectile pool is filled with. -/
def baseProjectile : Projectile :=
  { x := 0, y := 0, active := false, width := 4, height := 8, damage := 1,
    speed := PROJECTILE_SPEED }

/-- A live normal enemy overlapping the player's box, as produced by play:
spawned by `spawnEnemy` (40×40, health 1, `vy = 1`) and descended to the
player's row. -/
def overlapEnemy (x y : ℚ) : Enemy :=
  { baseEnemy with active := true, type := EnemyType.normal, x := x, y := y,
                   originalX := x, width := 40, height := 40, health := 1,
                   maxHealth := 1, vx := some 0, vy := some 1, moveTime := some 0 }

/-- Two enemies overlapping the player in the same tick, player on full
lives and not invulnerable. -/
def doubleHitWorld : World :=
  { state := { initialState with gameStarted := true },
    projectilePool := createProjectilePool,
    enemyPool := (createEnemyPool.set 0 (overlapEnemy 390 540)).set 1
      (overlapEnemy 420 545),
    particlePool := createParticlePool, powerupPool := createPowerUpPool,
    highScoreRef := 0, storage := none }

/-- The same double overlap with the player on the last life. -/
def lastLifeWorld : World :=
  { doubleHitWorld with state :=
      { doubleHitWorld.state with player :=
          { doubleHitWorld.state.player with lives := 1 } } }

/-- A live tank enemy as `spawnEnemy` produces (45×45, health 2,
`vy = 0.6`), partway down the playfield. -/
def tankEnemy : Enemy :=
  { baseEnemy with active := true, type := EnemyType.tank, x := 100, y := 100,
                   originalX := 100, width := 45, height := 45, health := 2,
                   maxHealth := 2, speed := ENEMY_SPEED * 0.8, vx := some 0,
                   vy := some 0.6, moveTime := some 0 }

/-- An enemy-fired projectile from a boss spray: `damage = 1` with a
velocity pair stored in `width`/`height` (so `width ≠ 4`), aimed up-left
toward the tank above it. -/
def strayEnemyProjectile : Projectile :=
  { baseProjectile with active := true, x := 110, y := 110, width := 2,
                        height := -2, damage := 1, speed := 3 }

/-- An enemy projectile overlapping an enemy: the collision pass does not
check who fired it. -/
def friendlyFireWorld : World :=
  { state := { initialState with gameStarted := true },
    projectilePool := createProjectilePool.set 0 strayEnemyProjectile,
    enemyPool := createEnemyPool.set 0 tankEnemy,
    particlePool := createParticlePool, powerupPool := createPowerUpPool,
    highScoreRef := 0, storage := none }

/-- A boss on its last hit point. -/
def dyingBoss : Enemy :=
  { baseEnemy with active := true, type := EnemyType.boss, x := 350, y := 50,
                   originalX := 350, width := 100, height := 100, health := 1,
                   maxHealth := 30, scale := 1.5, phase := some 3,
                   lastAttack := some 0, attackCooldown := some 2000,
                   vx := some 0, vy := some 0, moveTime := some 0,
                   speed := ENEMY_SPEED * 0.5 }

/-- A boss fight in its final instant: the player's projectile is about to
kill the boss while a boss projectile is about to hit the one-life player
in the very same tick. -/
def bothFlagsWorld : World :=
  { state :=
      { initialState with gameStarted := true, bossActive := true, level := 5,
                          player := { initialPlayer with lives := 1 } },
    projectilePool :=
      (createProjectilePool.set 0
        { baseProjectile with active := true, x := 395, y := 152, width := 4,
                              height := 10, damage := 1, speed := 12 }).set 1
        { baseProjectile with active := true, x := 390, y := 548, width := 0,
                              height := 4, damage := 1, speed := 4 },
    enemyPool := createEnemyPool.set 0 dyingBoss,
    particlePool := createParticlePool, powerupPool := createPowerUpPool,
    highScoreRef := 0, storage := none }

/-- A session whose combo has climbed past five (multiplier 2) and whose
combo window is about to lapse. -/
def staleMultiplierWorld : World :=
  { state :=
      { initialState with gameStarted := true, combo := 6, comboTimer := 10,
                          multiplier := 2 },
    projectilePool := createProjectilePool, enemyPool := createEnemyPool,
    particlePool := createParticlePool, powerupPool := createPowerUpPool,
    highScoreRef := 0, storage := none }

/-- A world whose projectile pool is fully saturated. -/
def saturatedPoolWorld : World :=
  { state := { initialState with gameStarted := true },
    projectilePool := createProjectilePool.map (fun p => { p with active := true }),
    enemyPool := createEnemyPool, particlePool := createParticlePool,
    powerupPool := createPowerUpPool, highScoreRef := 0, storage := none }

/-- A running world that already reached game over. -/
def gameOverWorld : World :=
  { state := { initialState with gameStarted := true, gameOver := true },
    projectilePool := createProjectilePool, enemyPool := createEnemyPool,
    particlePool := createParticlePool, powerupPool := createPowerUpPool,
    highScoreRef := 0, storage := none }

/-- A running world that already reached the win screen. -/
def gameWonWorld : World :=
  { state := { initialState with gameStarted := true, gameWon := true },
    projectilePool := createProjectilePool, enemyPool := createEnemyPool,
    particlePool := createParticlePool, powerupPool := createPowerUpPool,
    highScoreRef := 0, storage := none }

/-- Level 5 reached, arena empty, spawn timer elapsed: the boss gate. -/
def bossReadyWorld : World :=
  { state :=
      { initialState with gameStarted := true, level := 5,
                          lastEnemySpawn := -2000 },
    projectilePool := createProjectilePool, enemyPool := createEnemyPool,
    particlePool := createParticlePool, powerupPool := createPowerUpPool,
    highScoreRef := 0, storage := none }

/-- The boss gate with a boss already active. -/
def bossBusyWorld : World :=
  { bossReadyWorld with state :=
      { bossReadyWorld.state with bossActive := true } }

/-- The double-overlap world, but inside the invulnerability window. -/
def invulnWorld : World :=
  { doubleHitWorld with state :=
      { doubleHitWorld.state with player :=
          { doubleHitWorld.state.player with invulnerable := 2000 } } }

/-- A minimal world for exercising one projectile against one enemy. -/
def singleProjWorld : World :=
  { state := { initialState with gameStarted := true },
    projectilePool := [strayEnemyProjectile], enemyPool := [tankEnemy],
    particlePool := createParticlePool, powerupPool := createPowerUpPool,
    highScoreRef := 0, storage := none }

/-- The multiplier the kill-scoring block actually applies to the base
points, as a pure function of the post-kill combo counter (the spec-side
reading of "score multiplier"): `1` up to a combo of five, then
`min 5 (combo / 5 + 1)`. -/
def pureMultiplier (c : Int) : Int :=
  if c > 5 then min 5 (c / 5 + 1) else 1

/-- The game-over/lives coupling: whenever the game-over flag is clear, at
least one life remains. -/
def livesInv (st : GameState) : Prop :=
  st.gameOver = false → 1 ≤ st.player.lives

/-- The combo/timer coupling: an expired combo window means a zero combo. -/
def comboInv (st : GameState) : Prop :=
  st.comboTimer ≤ 0 → st.combo = 0

/-- What every pass after the enemy loop guarantees, phrased so it composes:
pool sizes survive, the two couplings survive, the lives cap survives, and
an open invulnerability window protects the lives counter. -/
def StepRel (u v : World) : Prop :=
  v.projectilePool.length = u.projectilePool.length ∧
  v.enemyPool.length = u.enemyPool.length ∧
  v.particlePool.length = u.particlePool.length ∧
  v.powerupPool.length = u.powerupPool.length ∧
  (livesInv u.state → livesInv v.state) ∧
  (comboInv u.state → comboInv v.state) ∧
  (u.state.player.lives ≤ 5 → v.state.player.lives ≤ 5) ∧
  (u.state.player.invulnerable > 0 →
    v.state.player.invulnerable = u.state.player.invulnerable ∧
      (u.state.player.lives ≤ 5 →
        u.state.player.lives ≤ v.state.player.lives))

end CyberGame



namespace CyberGame

/-! ## General fold and pool lemmas -/

/-- A property preserved by every step of a fold holds of the result. -/
theorem foldl_preserve {α β : Type} (P : β → Prop) (f : β → α → β) :
    ∀ (l : List α) (b : β), P b → (∀ b a, P b → P (f b a)) → P (l.foldl f b)
  | [], _, hb, _ => hb
  | _ :: l, b, hb, hf => foldl_preserve P f l _ (hf b _ hb) hf

/-- Acquiring a pool slot never changes the pool's size. -/
theorem length_acquireSlotIdx {α : Type} (isActive : α → Bool) (f : Nat → α → α) :
    ∀ (i : Nat) (l : List α), (acquireSlotIdx isActive f i l).length = l.length := by
  intro i l
  induction l generalizing i with
  | nil => rfl
  | cons x xs ih =>
    simp only [acquireSlotIdx]
    split
    · simp [ih]
    · simp

/-- A saturated pool ignores an acquire request. -/
theorem acquireSlotIdx_saturated {α : Type} (isActive : α → Bool) (f : Nat → α → α) :
    ∀ (i : Nat) (l : List α), (∀ x ∈ l, isActive x = true) →
      acquireSlotIdx isActive f i l = l := by
  intro i l
  induction l generalizing i with
  | nil => intro _; rfl
  | cons x xs ih =>
    intro h
    simp only [acquireSlotIdx, h x (List.mem_cons_self x xs), if_true]
    rw [ih]
    intro y hy
    exact h y (List.mem_cons_of_mem x hy)

/-- On a pool whose every slot is free, acquiring rewrites the head. -/
theorem acquireSlotIdx_head_free {α : Type} (isActive : α → Bool) (f : Nat → α → α)
    (i : Nat) (x : α) (xs : List α) (hx : isActive x = false) :
    acquireSlotIdx isActive f i (x :: xs) = f i x :: xs := by
  simp [acquireSlotIdx, hx]

/-- `createParticle` preserves the particle pool's size. -/
theorem length_createParticle (env : Env) (x y : ℚ) (ty : ParticleType)
    (color : String) (text : Option String) (pool : List Particle) :
    (createParticle env x y ty color text pool).length = pool.length := by
  simp [createParticle, length_acquireSlotIdx]

/-- A burst of `createParticle` calls preserves the particle pool's size. -/
theorem length_particleBurst (g : List Particle → Nat → List Particle)
    (hg : ∀ ps i, (g ps i).length = ps.length) (l : List Nat) (pool : List Particle) :
    (l.foldl g pool).length = pool.length :=
  foldl_preserve (fun ps => ps.length = pool.length) g l pool rfl
    (fun ps i h => (hg ps i).trans h)

/-- Firing an enemy projectile preserves the projectile pool's size. -/
theorem length_fireEnemyProjectile (x y damage speed pw ph : ℚ)
    (pool : List Projectile) :
    (fireEnemyProjectile x y damage speed pw ph pool).length = pool.length := by
  simp [fireEnemyProjectile, length_acquireSlotIdx]

/-- Each boss attack pattern preserves the projectile pool's size. -/
theorem length_bossAttackSpray (env : Env) (boss : Enemy) (pool : List Projectile) :
    (bossAttackSpray env boss pool).length = pool.length := by
  unfold bossAttackSpray
  apply foldl_preserve (fun (qs : List Projectile) => qs.length = pool.length)
  · rfl
  · intro qs i h
    dsimp only
    rw [length_fireEnemyProjectile]
    exact h

/-- The homing volley preserves the projectile pool's size. -/
theorem length_bossAttackHoming (boss : Enemy) (pool : List Projectile) :
    (bossAttackHoming boss pool).length = pool.length := by
  unfold bossAttackHoming
  apply foldl_preserve (fun (qs : List Projectile) => qs.length = pool.length)
  · rfl
  · intro qs i h
    dsimp only
    rw [length_fireEnemyProjectile]
    exact h

/-- The laser sweep preserves the projectile pool's size. -/
theorem length_bossAttackSweep (boss : Enemy) (pool : List Projectile) :
    (bossAttackSweep boss pool).length = pool.length := by
  unfold bossAttackSweep
  apply foldl_preserve (fun (qs : List Projectile) => qs.length = pool.length)
  · rfl
  · intro qs i h
    dsimp only
    rw [length_fireEnemyProjectile]
    exact h

/-- The spiral preserves the projectile pool's size. -/
theorem length_bossAttackSpiral (env : Env) (boss : Enemy) (pool : List Projectile) :
    (bossAttackSpiral env boss pool).length = pool.length := by
  unfold bossAttackSpiral
  apply foldl_preserve (fun (qs : List Projectile) => qs.length = pool.length)
  · rfl
  · intro qs i h
    dsimp only
    rw [length_fireEnemyProjectile]
    exact h

/-- The rain preserves the projectile pool's size. -/
theorem length_bossAttackRain (env : Env) (boss : Enemy) (pool : List Projectile) :
    (bossAttackRain env boss pool).length = pool.length := by
  unfold bossAttackRain
  apply foldl_preserve (fun (qs : List Projectile) => qs.length = pool.length)
  · rfl
  · intro qs i h
    dsimp only
    rw [length_fireEnemyProjectile]
    exact h

/-- The targeted burst preserves the projectile pool's size. -/
theorem length_bossAttackTargeted (env : Env) (player : Player) (boss : Enemy)
    (pool : List Projectile) :
    (bossAttackTargeted env player boss pool).length = pool.length := by
  unfold bossAttackTargeted
  dsimp only
  apply foldl_preserve (fun (qs : List Projectile) => qs.length = pool.length)
  · rfl
  · intro qs i h
    dsimp only
    rw [length_fireEnemyProjectile]
    exact h

/-- Every boss attack pattern preserves the projectile pool's size. -/
theorem length_createBossAttack (env : Env) (ei : Nat) (player : Player)
    (boss : Enemy) (pool : List Projectile) :
    (createBossAttack env ei player boss pool).length = pool.length := by
  unfold createBossAttack
  dsimp only
  split
  · exact length_bossAttackSpray _ _ _
  · split
    · split
      · exact length_bossAttackHoming _ _
      · exact length_bossAttackSweep _ _
    · split
      · exact length_bossAttackSpiral _ _ _
      · split
        · exact length_bossAttackRain _ _ _
        · exact length_bossAttackTargeted _ _ _ _

/-- Enemy movement preserves the projectile pool's size. -/
theorem length_updateEnemyMovement_proj (env : Env) (ei : Nat) (player : Player)
    (dt : ℚ) (e : Enemy) (pool : List Projectile) :
    (updateEnemyMovement env ei player dt e pool).2.1.length = pool.length := by
  unfold updateEnemyMovement
  cases e.type <;> dsimp only
  case boss =>
    split
    · exact length_createBossAttack _ _ _ _ _
    · rfl


/-! ## Facts about the shared player-hit block -/

/-- `loseLife` leaves the scoring and progression fields alone. -/
theorem loseLife_score (shake : ℚ) (st : GameState) (ref : Int)
    (storage : Option String) :
    (loseLife shake st ref storage).1.score = st.score := by
  unfold loseLife persistIfBeaten
  dsimp only
  split
  · split <;> rfl
  · rfl

/-- `loseLife` leaves the combo counter alone. -/
theorem loseLife_combo (shake : ℚ) (st : GameState) (ref : Int)
    (storage : Option String) :
    (loseLife shake st ref storage).1.combo = st.combo := by
  unfold loseLife persistIfBeaten
  dsimp only
  split
  · split <;> rfl
  · rfl

/-- `loseLife` leaves the combo timer alone. -/
theorem loseLife_comboTimer (shake : ℚ) (st : GameState) (ref : Int)
    (storage : Option String) :
    (loseLife shake st ref storage).1.comboTimer = st.comboTimer := by
  unfold loseLife persistIfBeaten
  dsimp only
  split
  · split <;> rfl
  · rfl

/-- `loseLife` leaves the multiplier alone. -/
theorem loseLife_multiplier (shake : ℚ) (st : GameState) (ref : Int)
    (storage : Option String) :
    (loseLife shake st ref storage).1.multiplier = st.multiplier := by
  unfold loseLife persistIfBeaten
  dsimp only
  split
  · split <;> rfl
  · rfl

/-- `loseLife` leaves the win flag alone. -/
theorem loseLife_gameWon (shake : ℚ) (st : GameState) (ref : Int)
    (storage : Option String) :
    (loseLife shake st ref storage).1.gameWon = st.gameWon := by
  unfold loseLife persistIfBeaten
  dsimp only
  split
  · split <;> rfl
  · rfl

/-- `loseLife` leaves the boss flag alone. -/
theorem loseLife_bossActive (shake : ℚ) (st : GameState) (ref : Int)
    (storage : Option String) :
    (loseLife shake st ref storage).1.bossActive = st.bossActive := by
  unfold loseLife persistIfBeaten
  dsimp only
  split
  · split <;> rfl
  · rfl

/-- `loseLife` decrements exactly one life. -/
theorem loseLife_lives (shake : ℚ) (st : GameState) (ref : Int)
    (storage : Option String) :
    (loseLife shake st ref storage).1.player.lives = st.player.lives - 1 := by
  unfold loseLife persistIfBeaten
  dsimp only
  split
  · split <;> rfl
  · rfl

/-- `loseLife` grants the 2000 ms invulnerability window. -/
theorem loseLife_invulnerable (shake : ℚ) (st : GameState) (ref : Int)
    (storage : Option String) :
    (loseLife shake st ref storage).1.player.invulnerable = 2000 := by
  unfold loseLife persistIfBeaten
  dsimp only
  split
  · split <;> rfl
  · rfl

/-- `loseLife` never clears an already-set game-over flag. -/
theorem loseLife_gameOver_mono (shake : ℚ) (st : GameState) (ref : Int)
    (storage : Option String) (h : st.gameOver = true) :
    (loseLife shake st ref storage).1.gameOver = true := by
  unfold loseLife persistIfBeaten
  dsimp only
  split
  · split <;> rfl
  · exact h

/-- After `loseLife`, a clear game-over flag guarantees at least one life:
the branch that leaves lives at zero or below always sets the flag. -/
theorem loseLife_livesInv (shake : ℚ) (st : GameState) (ref : Int)
    (storage : Option String) :
    (loseLife shake st ref storage).1.gameOver = false →
      1 ≤ (loseLife shake st ref storage).1.player.lives := by
  unfold loseLife persistIfBeaten
  dsimp only
  split
  · split <;> (intro h; exact absurd h (by simp))
  · next h =>
    intro _
    dsimp only
    omega

/-- `loseLife` never increases lives. -/
theorem loseLife_lives_le (shake : ℚ) (st : GameState) (ref : Int)
    (storage : Option String) :
    (loseLife shake st ref storage).1.player.lives ≤ st.player.lives := by
  rw [loseLife_lives]
  omega


/-! ## Per-pass frame lemmas -/

/-- Everything one iteration of the enemy loop does to the world, in one
statement: cosmetic pools and scoring fields are untouched, pools keep
their sizes, lives never go up, the game-over/lives coupling is preserved,
and with the invulnerability window open the React state is untouched. -/
theorem enemyStep_spec (env : Env) (dtm : ℚ) (w : World) (b ei : Nat) :
    (enemyStep env dtm (w, b) ei).1.particlePool = w.particlePool ∧
    (enemyStep env dtm (w, b) ei).1.powerupPool = w.powerupPool ∧
    (enemyStep env dtm (w, b) ei).1.projectilePool.length =
      w.projectilePool.length ∧
    (enemyStep env dtm (w, b) ei).1.enemyPool.length = w.enemyPool.length ∧
    (enemyStep env dtm (w, b) ei).1.state.score = w.state.score ∧
    (enemyStep env dtm (w, b) ei).1.state.combo = w.state.combo ∧
    (enemyStep env dtm (w, b) ei).1.state.comboTimer = w.state.comboTimer ∧
    (enemyStep env dtm (w, b) ei).1.state.multiplier = w.state.multiplier ∧
    (enemyStep env dtm (w, b) ei).1.state.gameWon = w.state.gameWon ∧
    (enemyStep env dtm (w, b) ei).1.state.bossActive = w.state.bossActive ∧
    (enemyStep env dtm (w, b) ei).1.state.level = w.state.level ∧
    (enemyStep env dtm (w, b) ei).1.state.player.lives ≤ w.state.player.lives ∧
    (livesInv w.state → livesInv (enemyStep env dtm (w, b) ei).1.state) ∧
    (w.state.player.invulnerable > 0 →
      (enemyStep env dtm (w, b) ei).1.state = w.state) := by
  unfold enemyStep
  cases hget : w.enemyPool[ei]? with
  | none => simp only [hget]; simp
  | some e =>
    simp only [hget]
    split
    · simp
    · rcases hm : updateEnemyMovement env ei w.state.player dtm e w.projectilePool
        with ⟨e1, pool1, b1⟩
      have hlen : pool1.length = w.projectilePool.length := by
        have h3 := length_updateEnemyMovement_proj env ei w.state.player dtm e
          w.projectilePool
        rw [hm] at h3
        exact h3
      simp only [hm]
      split
      · split
        · rcases hll : loseLife 20 w.state w.highScoreRef w.storage
            with ⟨st1, ref1, stor1⟩
          have hsc := loseLife_score 20 w.state w.highScoreRef w.storage
          have hco := loseLife_combo 20 w.state w.highScoreRef w.storage
          have hct := loseLife_comboTimer 20 w.state w.highScoreRef w.storage
          have hmu := loseLife_multiplier 20 w.state w.highScoreRef w.storage
          have hgw := loseLife_gameWon 20 w.state w.highScoreRef w.storage
          have hba := loseLife_bossActive 20 w.state w.highScoreRef w.storage
          have hlv := loseLife_lives_le 20 w.state w.highScoreRef w.storage
          have hli := loseLife_livesInv 20 w.state w.highScoreRef w.storage
          have hlev : (loseLife 20 w.state w.highScoreRef w.storage).1.level =
              w.state.level := by
            unfold loseLife persistIfBeaten
            dsimp only
            split
            · split <;> rfl
            · rfl
          rw [hll] at hsc hco hct hmu hgw hba hlv hli hlev
          next hinv =>
          refine ⟨rfl, rfl, hlen, by simp, hsc, hco, hct, hmu, hgw, hba, hlev,
            hlv, fun _ => hli, fun hpos => absurd hinv (by simp; linarith)⟩
        · next hinv => simp [hlen]
      · simp [hlen]


/-- The `enemyStep_spec` facts lifted over the whole enemy loop. -/
theorem enemyPass_spec (env : Env) (dtm : ℚ) (w : World) :
    (enemyPass env dtm w).1.particlePool = w.particlePool ∧
    (enemyPass env dtm w).1.powerupPool = w.powerupPool ∧
    (enemyPass env dtm w).1.projectilePool.length = w.projectilePool.length ∧
    (enemyPass env dtm w).1.enemyPool.length = w.enemyPool.length ∧
    (enemyPass env dtm w).1.state.score = w.state.score ∧
    (enemyPass env dtm w).1.state.combo = w.state.combo ∧
    (enemyPass env dtm w).1.state.comboTimer = w.state.comboTimer ∧
    (enemyPass env dtm w).1.state.multiplier = w.state.multiplier ∧
    (enemyPass env dtm w).1.state.gameWon = w.state.gameWon ∧
    (enemyPass env dtm w).1.state.bossActive = w.state.bossActive ∧
    (enemyPass env dtm w).1.state.level = w.state.level ∧
    (enemyPass env dtm w).1.state.player.lives ≤ w.state.player.lives ∧
    (livesInv w.state → livesInv (enemyPass env dtm w).1.state) ∧
    (w.state.player.invulnerable > 0 → (enemyPass env dtm w).1.state = w.state) := by
  unfold enemyPass
  apply foldl_preserve (fun (q : World × Nat) =>
    q.1.particlePool = w.particlePool ∧
    q.1.powerupPool = w.powerupPool ∧
    q.1.projectilePool.length = w.projectilePool.length ∧
    q.1.enemyPool.length = w.enemyPool.length ∧
    q.1.state.score = w.state.score ∧
    q.1.state.combo = w.state.combo ∧
    q.1.state.comboTimer = w.state.comboTimer ∧
    q.1.state.multiplier = w.state.multiplier ∧
    q.1.state.gameWon = w.state.gameWon ∧
    q.1.state.bossActive = w.state.bossActive ∧
    q.1.state.level = w.state.level ∧
    q.1.state.player.lives ≤ w.state.player.lives ∧
    (livesInv w.state → livesInv q.1.state) ∧
    (w.state.player.invulnerable > 0 → q.1.state = w.state))
  · exact ⟨rfl, rfl, rfl, rfl, rfl, rfl, rfl, rfl, rfl, rfl, rfl, le_refl _,
      fun h => h, fun _ => rfl⟩
  · rintro ⟨w1, b1⟩ ei
      ⟨h1, h2, h3, h4, h5, h6, h7, h8, h9, h10, h11, h12, h13, h14⟩
    obtain ⟨g1, g2, g3, g4, g5, g6, g7, g8, g9, g10, g11, g12, g13, g14⟩ :=
      enemyStep_spec env dtm w1 b1 ei
    refine ⟨g1.trans h1, g2.trans h2, g3.trans h3, g4.trans h4, g5.trans h5,
      g6.trans h6, g7.trans h7, g8.trans h8, g9.trans h9, g10.trans h10,
      g11.trans h11, le_trans g12 h12, fun hw => g13 (h13 hw), fun hp => ?_⟩
    have hs := h14 hp
    have : w1.state.player.invulnerable > 0 := by rw [hs]; exact hp
    exact (g14 this).trans hs


/-- The explosion burst of an enemy death keeps the particle pool's size. -/
theorem length_killBurst (env : Env) (e : Enemy) (n : Nat) (color : String)
    (ps : List Particle) :
    ((List.range n).foldl
      (fun ps2 i =>
        createParticle env (e.x + e.width / 2 + (env.rand 20 i - 0.5) * e.width)
          (e.y + e.height / 2 + (env.rand 21 i - 0.5) * e.height)
          ParticleType.explosion color none ps2)
      ps).length = ps.length :=
  length_particleBurst _ (fun ps2 i => length_createParticle _ _ _ _ _ _ ps2) _ ps

/-- Kill scoring leaves the player and the game-over flag alone, always
rearms the 3000 ms combo window, bumps the combo by one, and keeps the
particle pool's size. -/
theorem applyKillScore_spec (env : Env) (e : Enemy) (st : GameState)
    (particles : List Particle) :
    (applyKillScore env e st particles).1.player = st.player ∧
    (applyKillScore env e st particles).1.gameOver = st.gameOver ∧
    (applyKillScore env e st particles).1.comboTimer = 3000 ∧
    (applyKillScore env e st particles).1.combo = st.combo + 1 ∧
    (applyKillScore env e st particles).2.length = particles.length := by
  by_cases hc : st.combo + 1 > 5 <;> by_cases hb : e.type = EnemyType.boss <;>
    simp [applyKillScore, hc, hb, length_createParticle, length_killBurst]

/-- One iteration of the inner projectile/enemy collision loop: enemy pool
size, the player, the game-over flag and the combo/timer coupling survive,
and the particle pool keeps its size. -/
theorem projEnemyInner_spec (env : Env) (p : Projectile) (enemies : List Enemy)
    (st : GameState) (particles : List Particle) (i : Nat) :
    (projEnemyInner env (p, enemies, st, particles) i).2.1.length =
      enemies.length ∧
    (projEnemyInner env (p, enemies, st, particles) i).2.2.1.player =
      st.player ∧
    (projEnemyInner env (p, enemies, st, particles) i).2.2.1.gameOver =
      st.gameOver ∧
    (comboInv st → comboInv (projEnemyInner env (p, enemies, st, particles) i).2.2.1) ∧
    (projEnemyInner env (p, enemies, st, particles) i).2.2.2.length =
      particles.length := by
  unfold projEnemyInner
  cases hget : enemies[i]? with
  | none => simp [hget]
  | some e =>
    simp only [hget]
    split
    · simp
    · split
      · have hspark : ∀ ps : List Particle,
            ((List.range 5).foldl
              (fun ps2 _ =>
                createParticle env (e.x + e.width / 2) (e.y + e.height / 2)
                  ParticleType.spark "#f07e41" none ps2) ps).length = ps.length :=
          fun ps =>
            length_particleBurst _
              (fun ps2 _ => length_createParticle _ _ _ _ _ _ ps2) _ ps
        split
        · obtain ⟨k1, k2, k3, k4, k5⟩ := applyKillScore_spec env
            { e with health := e.health - p.damage, active := false } st
            ((List.range 5).foldl
              (fun ps2 _ =>
                createParticle env (e.x + e.width / 2) (e.y + e.height / 2)
                  ParticleType.spark "#f07e41" none ps2) particles)
          refine ⟨by simp, k1, k2, fun _ => ?_, by rw [k5, hspark]⟩
          intro habs
          rw [k3] at habs
          norm_num at habs
        · exact ⟨by simp, rfl, rfl, fun h => h, hspark particles⟩
      · exact ⟨rfl, rfl, rfl, fun h => h, rfl⟩

/-- The inner-loop facts lifted over one outer iteration. -/
theorem projEnemyOuter_spec (env : Env) (projs : List Projectile)
    (enemies : List Enemy) (st : GameState) (particles : List Particle) (j : Nat) :
    (projEnemyOuter env (projs, enemies, st, particles) j).1.length =
      projs.length ∧
    (projEnemyOuter env (projs, enemies, st, particles) j).2.1.length =
      enemies.length ∧
    (projEnemyOuter env (projs, enemies, st, particles) j).2.2.1.player =
      st.player ∧
    (projEnemyOuter env (projs, enemies, st, particles) j).2.2.1.gameOver =
      st.gameOver ∧
    (comboInv st →
      comboInv (projEnemyOuter env (projs, enemies, st, particles) j).2.2.1) ∧
    (projEnemyOuter env (projs, enemies, st, particles) j).2.2.2.length =
      particles.length := by
  unfold projEnemyOuter
  cases hget : projs[j]? with
  | none => simp [hget]
  | some p =>
    simp only [hget]
    split
    · simp
    · have hfold :
          ((List.range enemies.length).foldl (projEnemyInner env)
            (p, enemies, st, particles)).2.1.length = enemies.length ∧
          ((List.range enemies.length).foldl (projEnemyInner env)
            (p, enemies, st, particles)).2.2.1.player = st.player ∧
          ((List.range enemies.length).foldl (projEnemyInner env)
            (p, enemies, st, particles)).2.2.1.gameOver = st.gameOver ∧
          (comboInv st →
            comboInv ((List.range enemies.length).foldl (projEnemyInner env)
              (p, enemies, st, particles)).2.2.1) ∧
          ((List.range enemies.length).foldl (projEnemyInner env)
            (p, enemies, st, particles)).2.2.2.length = particles.length := by
        apply foldl_preserve
          (fun (q : Projectile × List Enemy × GameState × List Particle) =>
            q.2.1.length = enemies.length ∧ q.2.2.1.player = st.player ∧
            q.2.2.1.gameOver = st.gameOver ∧
            (comboInv st → comboInv q.2.2.1) ∧
            q.2.2.2.length = particles.length)
        · exact ⟨rfl, rfl, rfl, fun h => h, rfl⟩
        · rintro ⟨p1, en1, st1, pa1⟩ i1 ⟨h1, h2, h3, h4, h5⟩
          obtain ⟨g1, g2, g3, g4, g5⟩ := projEnemyInner_spec env p1 en1 st1 pa1 i1
          exact ⟨g1.trans h1, g2.trans h2, g3.trans h3,
            fun hc => g4 (h4 hc), g5.trans h5⟩
      rcases hf : (List.range enemies.length).foldl (projEnemyInner env)
          (p, enemies, st, particles) with ⟨p2, en2, st2, pa2⟩
      rw [hf] at hfold
      obtain ⟨f1, f2, f3, f4, f5⟩ := hfold
      simp only [hf]
      exact ⟨by simp, f1, f2, f3, f4, f5⟩

/-- The projectile/enemy collision pass: pools keep their sizes, the player
and the game-over flag are untouched, and the combo/timer coupling is
preserved. -/
theorem projEnemyPass_spec (env : Env) (w : World) :
    (projEnemyPass env w).projectilePool.length = w.projectilePool.length ∧
    (projEnemyPass env w).enemyPool.length = w.enemyPool.length ∧
    (projEnemyPass env w).state.player = w.state.player ∧
    (projEnemyPass env w).state.gameOver = w.state.gameOver ∧
    (comboInv w.state → comboInv (projEnemyPass env w).state) ∧
    (projEnemyPass env w).particlePool.length = w.particlePool.length ∧
    (projEnemyPass env w).powerupPool = w.powerupPool ∧
    (projEnemyPass env w).highScoreRef = w.highScoreRef ∧
    (projEnemyPass env w).storage = w.storage := by
  unfold projEnemyPass
  have hfold :
      ((List.range w.projectilePool.length).foldl (projEnemyOuter env)
        (w.projectilePool, w.enemyPool, w.state, w.particlePool)).1.length =
        w.projectilePool.length ∧
      ((List.range w.projectilePool.length).foldl (projEnemyOuter env)
        (w.projectilePool, w.enemyPool, w.state, w.particlePool)).2.1.length =
        w.enemyPool.length ∧
      ((List.range w.projectilePool.length).foldl (projEnemyOuter env)
        (w.projectilePool, w.enemyPool, w.state, w.particlePool)).2.2.1.player =
        w.state.player ∧
      ((List.range w.projectilePool.length).foldl (projEnemyOuter env)
        (w.projectilePool, w.enemyPool, w.state, w.particlePool)).2.2.1.gameOver =
        w.state.gameOver ∧
      (comboInv w.state →
        comboInv ((List.range w.projectilePool.length).foldl (projEnemyOuter env)
          (w.projectilePool, w.enemyPool, w.state, w.particlePool)).2.2.1) ∧
      ((List.range w.projectilePool.length).foldl (projEnemyOuter env)
        (w.projectilePool, w.enemyPool, w.state, w.particlePool)).2.2.2.length =
        w.particlePool.length := by
    apply foldl_preserve
      (fun (q : List Projectile × List Enemy × GameState × List Particle) =>
        q.1.length = w.projectilePool.length ∧
        q.2.1.length = w.enemyPool.length ∧
        q.2.2.1.player = w.state.player ∧
        q.2.2.1.gameOver = w.state.gameOver ∧
        (comboInv w.state → comboInv q.2.2.1) ∧
        q.2.2.2.length = w.particlePool.length)
    · exact ⟨rfl, rfl, rfl, rfl, fun h => h, rfl⟩
    · rintro ⟨pr1, en1, st1, pa1⟩ j1 ⟨h1, h2, h3, h4, h5, h6⟩
      obtain ⟨g1, g2, g3, g4, g5, g6⟩ := projEnemyOuter_spec env pr1 en1 st1 pa1 j1
      exact ⟨g1.trans h1, g2.trans h2, g3.trans h3, g4.trans h4,
        fun hc => g5 (h5 hc), g6.trans h6⟩
  rcases hf : (List.range w.projectilePool.length).foldl (projEnemyOuter env)
      (w.projectilePool, w.enemyPool, w.state, w.particlePool)
      with ⟨pr2, en2, st2, pa2⟩
  rw [hf] at hfold
  obtain ⟨f1, f2, f3, f4, f5, f6⟩ := hfold
  simp only [hf]
  exact ⟨f1, f2, f3, f4, f5, f6, trivial, trivial, trivial⟩


/-- One iteration of the player/enemy collision loop: pools keep their
sizes, scoring fields survive, lives never go up, and the game-over/lives
coupling is preserved. -/
theorem playerEnemyHit_spec (env : Env) (w : World) (i : Nat) :
    (playerEnemyHit env w i).particlePool.length = w.particlePool.length ∧
    (playerEnemyHit env w i).powerupPool = w.powerupPool ∧
    (playerEnemyHit env w i).projectilePool = w.projectilePool ∧
    (playerEnemyHit env w i).enemyPool.length = w.enemyPool.length ∧
    (playerEnemyHit env w i).state.score = w.state.score ∧
    (playerEnemyHit env w i).state.combo = w.state.combo ∧
    (playerEnemyHit env w i).state.comboTimer = w.state.comboTimer ∧
    (playerEnemyHit env w i).state.multiplier = w.state.multiplier ∧
    (playerEnemyHit env w i).state.gameWon = w.state.gameWon ∧
    (playerEnemyHit env w i).state.bossActive = w.state.bossActive ∧
    (playerEnemyHit env w i).state.level = w.state.level ∧
    (playerEnemyHit env w i).state.player.lives ≤ w.state.player.lives ∧
    (livesInv w.state → livesInv (playerEnemyHit env w i).state) := by
  unfold playerEnemyHit
  cases hget : w.enemyPool[i]? with
  | none => simp [hget]
  | some e =>
    simp only [hget]
    split
    · simp
    · split
      · have hburst : ∀ ps : List Particle,
            ((List.range 10).foldl
              (fun ps2 _ =>
                createParticle env (e.x + e.width / 2) (e.y + e.height / 2)
                  ParticleType.explosion "#ff0000" none ps2) ps).length =
              ps.length :=
          fun ps =>
            length_particleBurst _
              (fun ps2 _ => length_createParticle _ _ _ _ _ _ ps2) _ ps
        split
        · rcases hll : loseLife 20 w.state w.highScoreRef w.storage
            with ⟨st1, ref1, stor1⟩
          have hsc := loseLife_score 20 w.state w.highScoreRef w.storage
          have hco := loseLife_combo 20 w.state w.highScoreRef w.storage
          have hct := loseLife_comboTimer 20 w.state w.highScoreRef w.storage
          have hmu := loseLife_multiplier 20 w.state w.highScoreRef w.storage
          have hgw := loseLife_gameWon 20 w.state w.highScoreRef w.storage
          have hba := loseLife_bossActive 20 w.state w.highScoreRef w.storage
          have hlv := loseLife_lives_le 20 w.state w.highScoreRef w.storage
          have hli := loseLife_livesInv 20 w.state w.highScoreRef w.storage
          have hlev : (loseLife 20 w.state w.highScoreRef w.storage).1.level =
              w.state.level := by
            unfold loseLife persistIfBeaten
            dsimp only
            split
            · split <;> rfl
            · rfl
          rw [hll] at hsc hco hct hmu hgw hba hlv hli hlev
          exact ⟨hburst _, rfl, rfl, by simp, hsc, hco, hct, hmu, hgw, hba,
            hlev, hlv, fun _ => hli⟩
        · exact ⟨hburst _, rfl, rfl, by simp, rfl, rfl, rfl, rfl, rfl, rfl,
            rfl, le_refl _, fun h => h⟩
      · simp

/-- `playerEnemyHit_spec` lifted over the whole pass, plus: an open
invulnerability window makes the pass a no-op. -/
theorem playerEnemiesPass_spec (env : Env) (w : World) :
    (playerEnemiesPass env w).particlePool.length = w.particlePool.length ∧
    (playerEnemiesPass env w).powerupPool = w.powerupPool ∧
    (playerEnemiesPass env w).projectilePool = w.projectilePool ∧
    (playerEnemiesPass env w).enemyPool.length = w.enemyPool.length ∧
    (playerEnemiesPass env w).state.score = w.state.score ∧
    (playerEnemiesPass env w).state.combo = w.state.combo ∧
    (playerEnemiesPass env w).state.comboTimer = w.state.comboTimer ∧
    (playerEnemiesPass env w).state.multiplier = w.state.multiplier ∧
    (playerEnemiesPass env w).state.gameWon = w.state.gameWon ∧
    (playerEnemiesPass env w).state.bossActive = w.state.bossActive ∧
    (playerEnemiesPass env w).state.level = w.state.level ∧
    (playerEnemiesPass env w).state.player.lives ≤ w.state.player.lives ∧
    (livesInv w.state → livesInv (playerEnemiesPass env w).state) ∧
    (w.state.player.invulnerable > 0 → playerEnemiesPass env w = w) := by
  unfold playerEnemiesPass
  split
  · next hinv =>
    have hfold := foldl_preserve
      (fun (q : World) =>
        q.particlePool.length = w.particlePool.length ∧
        q.powerupPool = w.powerupPool ∧
        q.projectilePool = w.projectilePool ∧
        q.enemyPool.length = w.enemyPool.length ∧
        q.state.score = w.state.score ∧
        q.state.combo = w.state.combo ∧
        q.state.comboTimer = w.state.comboTimer ∧
        q.state.multiplier = w.state.multiplier ∧
        q.state.gameWon = w.state.gameWon ∧
        q.state.bossActive = w.state.bossActive ∧
        q.state.level = w.state.level ∧
        q.state.player.lives ≤ w.state.player.lives ∧
        (livesInv w.state → livesInv q.state))
      (playerEnemyHit env) (List.range w.enemyPool.length) w
      ⟨rfl, rfl, rfl, rfl, rfl, rfl, rfl, rfl, rfl, rfl, rfl, le_refl _,
        fun h => h⟩
      (by
        rintro q i ⟨h1, h2, h3, h4, h5, h6, h7, h8, h9, h10, h11, h12, h13⟩
        obtain ⟨g1, g2, g3, g4, g5, g6, g7, g8, g9, g10, g11, g12, g13⟩ :=
          playerEnemyHit_spec env q i
        exact ⟨g1.trans h1, g2.trans h2, g3.trans h3, g4.trans h4, g5.trans h5,
          g6.trans h6, g7.trans h7, g8.trans h8, g9.trans h9, g10.trans h10,
          g11.trans h11, le_trans g12 h12, fun hw => g13 (h13 hw)⟩)
    obtain ⟨f1, f2, f3, f4, f5, f6, f7, f8, f9, f10, f11, f12, f13⟩ := hfold
    refine ⟨f1, f2, f3, f4, f5, f6, f7, f8, f9, f10, f11, f12, f13, ?_⟩
    intro hpos
    exact absurd hinv (by simp; linarith)
  · simp


/-- One iteration of the player/enemy-projectile collision loop. -/
theorem playerProjHit_spec (env : Env) (w : World) (j : Nat) :
    (playerProjHit env w j).particlePool.length = w.particlePool.length ∧
    (playerProjHit env w j).powerupPool = w.powerupPool ∧
    (playerProjHit env w j).projectilePool.length = w.projectilePool.length ∧
    (playerProjHit env w j).enemyPool = w.enemyPool ∧
    (playerProjHit env w j).state.score = w.state.score ∧
    (playerProjHit env w j).state.combo = w.state.combo ∧
    (playerProjHit env w j).state.comboTimer = w.state.comboTimer ∧
    (playerProjHit env w j).state.multiplier = w.state.multiplier ∧
    (playerProjHit env w j).state.gameWon = w.state.gameWon ∧
    (playerProjHit env w j).state.bossActive = w.state.bossActive ∧
    (playerProjHit env w j).state.level = w.state.level ∧
    (playerProjHit env w j).state.player.lives ≤ w.state.player.lives ∧
    (livesInv w.state → livesInv (playerProjHit env w j).state) := by
  unfold playerProjHit
  cases hget : w.projectilePool[j]? with
  | none => simp [hget]
  | some p =>
    simp only [hget]
    split
    · simp
    · split
      · split
        · have hburst : ∀ ps : List Particle,
              ((List.range 6).foldl
                (fun ps2 _ =>
                  createParticle env p.x p.y ParticleType.spark "#ff4444" none
                    ps2) ps).length = ps.length :=
            fun ps =>
              length_particleBurst _
                (fun ps2 _ => length_createParticle _ _ _ _ _ _ ps2) _ ps
          split
          · rcases hll : loseLife 15 w.state w.highScoreRef w.storage
              with ⟨st1, ref1, stor1⟩
            have hsc := loseLife_score 15 w.state w.highScoreRef w.storage
            have hco := loseLife_combo 15 w.state w.highScoreRef w.storage
            have hct := loseLife_comboTimer 15 w.state w.highScoreRef w.storage
            have hmu := loseLife_multiplier 15 w.state w.highScoreRef w.storage
            have hgw := loseLife_gameWon 15 w.state w.highScoreRef w.storage
            have hba := loseLife_bossActive 15 w.state w.highScoreRef w.storage
            have hlv := loseLife_lives_le 15 w.state w.highScoreRef w.storage
            have hli := loseLife_livesInv 15 w.state w.highScoreRef w.storage
            have hlev : (loseLife 15 w.state w.highScoreRef w.storage).1.level =
                w.state.level := by
              unfold loseLife persistIfBeaten
              dsimp only
              split
              · split <;> rfl
              · rfl
            rw [hll] at hsc hco hct hmu hgw hba hlv hli hlev
            exact ⟨hburst _, rfl, by simp, rfl, hsc, hco, hct, hmu, hgw, hba,
              hlev, hlv, fun _ => hli⟩
          · refine ⟨?_, rfl, by simp, rfl, rfl, rfl, rfl, rfl, rfl, rfl, rfl,
              le_refl _, fun h => h⟩
            rw [hburst, length_createParticle]
        · simp
      · simp

/-- `playerProjHit_spec` lifted over the whole pass, plus: an open
invulnerability window makes the pass a no-op. -/
theorem playerProjPass_spec (env : Env) (w : World) :
    (playerProjPass env w).particlePool.length = w.particlePool.length ∧
    (playerProjPass env w).powerupPool = w.powerupPool ∧
    (playerProjPass env w).projectilePool.length = w.projectilePool.length ∧
    (playerProjPass env w).enemyPool = w.enemyPool ∧
    (playerProjPass env w).state.score = w.state.score ∧
    (playerProjPass env w).state.combo = w.state.combo ∧
    (playerProjPass env w).state.comboTimer = w.state.comboTimer ∧
    (playerProjPass env w).state.multiplier = w.state.multiplier ∧
    (playerProjPass env w).state.gameWon = w.state.gameWon ∧
    (playerProjPass env w).state.bossActive = w.state.bossActive ∧
    (playerProjPass env w).state.level = w.state.level ∧
    (playerProjPass env w).state.player.lives ≤ w.state.player.lives ∧
    (livesInv w.state → livesInv (playerProjPass env w).state) ∧
    (w.state.player.invulnerable > 0 → playerProjPass env w = w) := by
  unfold playerProjPass
  split
  · next hinv =>
    have hfold := foldl_preserve
      (fun (q : World) =>
        q.particlePool.length = w.particlePool.length ∧
        q.powerupPool = w.powerupPool ∧
        q.projectilePool.length = w.projectilePool.length ∧
        q.enemyPool = w.enemyPool ∧
        q.state.score = w.state.score ∧
        q.state.combo = w.state.combo ∧
        q.state.comboTimer = w.state.comboTimer ∧
        q.state.multiplier = w.state.multiplier ∧
        q.state.gameWon = w.state.gameWon ∧
        q.state.bossActive = w.state.bossActive ∧
        q.state.level = w.state.level ∧
        q.state.player.lives ≤ w.state.player.lives ∧
        (livesInv w.state → livesInv q.state))
      (playerProjHit env) (List.range w.projectilePool.length) w
      ⟨rfl, rfl, rfl, rfl, rfl, rfl, rfl, rfl, rfl, rfl, rfl, le_refl _,
        fun h => h⟩
      (by
        rintro q j ⟨h1, h2, h3, h4, h5, h6, h7, h8, h9, h10, h11, h12, h13⟩
        obtain ⟨g1, g2, g3, g4, g5, g6, g7, g8, g9, g10, g11, g12, g13⟩ :=
          playerProjHit_spec env q j
        exact ⟨g1.trans h1, g2.trans h2, g3.trans h3, g4.trans h4, g5.trans h5,
          g6.trans h6, g7.trans h7, g8.trans h8, g9.trans h9, g10.trans h10,
          g11.trans h11, le_trans g12 h12, fun hw => g13 (h13 hw)⟩)
    obtain ⟨f1, f2, f3, f4, f5, f6, f7, f8, f9, f10, f11, f12, f13⟩ := hfold
    refine ⟨f1, f2, f3, f4, f5, f6, f7, f8, f9, f10, f11, f12, f13, ?_⟩
    intro hpos
    exact absurd hinv (by simp; linarith)
  · simp


/-- Collecting a power-up never touches the flags, the scoring fields or
the invulnerability window; the health pick-up moves lives to
`min 5 (lives + 1)` and every other type leaves lives alone. -/
theorem applyPowerUp_spec (ty : PowerUpType) (st : GameState) :
    (applyPowerUp ty st).gameOver = st.gameOver ∧
    (applyPowerUp ty st).gameWon = st.gameWon ∧
    (applyPowerUp ty st).score = st.score ∧
    (applyPowerUp ty st).combo = st.combo ∧
    (applyPowerUp ty st).comboTimer = st.comboTimer ∧
    (applyPowerUp ty st).multiplier = st.multiplier ∧
    (applyPowerUp ty st).level = st.level ∧
    (applyPowerUp ty st).bossActive = st.bossActive ∧
    (applyPowerUp ty st).player.invulnerable = st.player.invulnerable ∧
    (st.player.lives ≤ 5 → st.player.lives ≤ (applyPowerUp ty st).player.lives) ∧
    (st.player.lives ≤ 5 → (applyPowerUp ty st).player.lives ≤ 5) ∧
    (1 ≤ st.player.lives → 1 ≤ (applyPowerUp ty st).player.lives) := by
  cases ty <;> simp [applyPowerUp] <;> omega

/-- One iteration of the power-up collection loop. -/
theorem powerUpHit_spec (env : Env) (w : World) (i : Nat) :
    (powerUpHit env w i).particlePool.length = w.particlePool.length ∧
    (powerUpHit env w i).powerupPool.length = w.powerupPool.length ∧
    (powerUpHit env w i).projectilePool = w.projectilePool ∧
    (powerUpHit env w i).enemyPool = w.enemyPool ∧
    (powerUpHit env w i).state.score = w.state.score ∧
    (powerUpHit env w i).state.combo = w.state.combo ∧
    (powerUpHit env w i).state.comboTimer = w.state.comboTimer ∧
    (powerUpHit env w i).state.multiplier = w.state.multiplier ∧
    (powerUpHit env w i).state.gameWon = w.state.gameWon ∧
    (powerUpHit env w i).state.bossActive = w.state.bossActive ∧
    (powerUpHit env w i).state.level = w.state.level ∧
    (powerUpHit env w i).state.gameOver = w.state.gameOver ∧
    (powerUpHit env w i).state.player.invulnerable =
      w.state.player.invulnerable ∧
    (w.state.player.lives ≤ 5 →
      w.state.player.lives ≤ (powerUpHit env w i).state.player.lives) ∧
    (w.state.player.lives ≤ 5 →
      (powerUpHit env w i).state.player.lives ≤ 5) ∧
    (livesInv w.state → livesInv (powerUpHit env w i).state) := by
  unfold powerUpHit
  cases hget : w.powerupPool[i]? with
  | none => simp [hget]
  | some p =>
    simp only [hget]
    split
    · simp
    · split
      · rcases hbn : powerUpBanner p.type with ⟨color, msg⟩
        simp only [hbn]
        obtain ⟨a1, a2, a3, a4, a5, a6, a7, a8, a9, a10, a11, a12⟩ :=
          applyPowerUp_spec p.type w.state
        refine ⟨by rw [length_createParticle], by simp, by trivial, by trivial,
          a3, a4, a5, a6, a2, a8, a7, a1, a9, a10, a11, fun hw => ?_⟩
        unfold livesInv at hw ⊢
        intro hgo
        rw [a1] at hgo
        exact a12 (hw hgo)
      · simp

/-- `powerUpHit_spec` lifted over the whole pass. -/
theorem powerUpPass_spec (env : Env) (w : World) :
    (powerUpPass env w).particlePool.length = w.particlePool.length ∧
    (powerUpPass env w).powerupPool.length = w.powerupPool.length ∧
    (powerUpPass env w).projectilePool = w.projectilePool ∧
    (powerUpPass env w).enemyPool = w.enemyPool ∧
    (powerUpPass env w).state.score = w.state.score ∧
    (powerUpPass env w).state.combo = w.state.combo ∧
    (powerUpPass env w).state.comboTimer = w.state.comboTimer ∧
    (powerUpPass env w).state.multiplier = w.state.multiplier ∧
    (powerUpPass env w).state.gameWon = w.state.gameWon ∧
    (powerUpPass env w).state.bossActive = w.state.bossActive ∧
    (powerUpPass env w).state.level = w.state.level ∧
    (powerUpPass env w).state.gameOver = w.state.gameOver ∧
    (powerUpPass env w).state.player.invulnerable =
      w.state.player.invulnerable ∧
    (w.state.player.lives ≤ 5 →
      w.state.player.lives ≤ (powerUpPass env w).state.player.lives) ∧
    (w.state.player.lives ≤ 5 →
      (powerUpPass env w).state.player.lives ≤ 5) ∧
    (livesInv w.state → livesInv (powerUpPass env w).state) := by
  unfold powerUpPass
  have hfold := foldl_preserve
    (fun (q : World) =>
      q.particlePool.length = w.particlePool.length ∧
      q.powerupPool.length = w.powerupPool.length ∧
      q.projectilePool = w.projectilePool ∧
      q.enemyPool = w.enemyPool ∧
      q.state.score = w.state.score ∧
      q.state.combo = w.state.combo ∧
      q.state.comboTimer = w.state.comboTimer ∧
      q.state.multiplier = w.state.multiplier ∧
      q.state.gameWon = w.state.gameWon ∧
      q.state.bossActive = w.state.bossActive ∧
      q.state.level = w.state.level ∧
      q.state.gameOver = w.state.gameOver ∧
      q.state.player.invulnerable = w.state.player.invulnerable ∧
      (w.state.player.lives ≤ 5 →
        w.state.player.lives ≤ q.state.player.lives ∧
          q.state.player.lives ≤ 5) ∧
      (livesInv w.state → livesInv q.state))
    (powerUpHit env) (List.range w.powerupPool.length) w
    ⟨rfl, rfl, rfl, rfl, rfl, rfl, rfl, rfl, rfl, rfl, rfl, rfl, rfl,
      fun h => ⟨le_refl _, h⟩, fun h => h⟩
    (by
      rintro q i ⟨h1, h2, h3, h4, h5, h6, h7, h8, h9, h10, h11, h12, h13,
        h14, h15⟩
      obtain ⟨g1, g2, g3, g4, g5, g6, g7, g8, g9, g10, g11, g12, g13, g14,
        g15, g16⟩ := powerUpHit_spec env q i
      refine ⟨g1.trans h1, g2.trans h2, g3.trans h3, g4.trans h4, g5.trans h5,
        g6.trans h6, g7.trans h7, g8.trans h8, g9.trans h9, g10.trans h10,
        g11.trans h11, g12.trans h12, g13.trans h13, fun hw => ?_,
        fun hw => g16 (h15 hw)⟩
      obtain ⟨hle, hcap⟩ := h14 hw
      exact ⟨le_trans hle (g14 hcap), g15 hcap⟩)
  obtain ⟨f1, f2, f3, f4, f5, f6, f7, f8, f9, f10, f11, f12, f13, f14, f15⟩ :=
    hfold
  exact ⟨f1, f2, f3, f4, f5, f6, f7, f8, f9, f10, f11, f12, f13,
    fun hw => (f14 hw).1, fun hw => (f14 hw).2, f15⟩


/-- `spawnEnemy` keeps the enemy pool's size. -/
theorem length_spawnEnemy (env : Env) (pool : List Enemy) :
    (spawnEnemy env pool).length = pool.length := by
  simp [spawnEnemy, length_acquireSlotIdx]

/-- `spawnBoss` keeps both pool sizes. -/
theorem length_spawnBoss (env : Env) (enemies : List Enemy)
    (particles : List Particle) :
    (spawnBoss env enemies particles).1.length = enemies.length ∧
    (spawnBoss env enemies particles).2.length = particles.length := by
  unfold spawnBoss
  split
  · exact ⟨rfl, rfl⟩
  · exact ⟨length_acquireSlotIdx _ _ _ _, length_createParticle _ _ _ _ _ _ _⟩

/-- `spawnPowerUp` keeps the pool's size. -/
theorem length_spawnPowerUp (env : Env) (pool : List PowerUp) :
    (spawnPowerUp env pool).length = pool.length := by
  simp [spawnPowerUp, length_acquireSlotIdx]

/-- The spawning phase only touches the enemy pool (size preserved), the
particle pool (size preserved), and the `bossActive`/`lastEnemySpawn`
fields. -/
theorem spawnPhase_spec (env : Env) (w : World) :
    (spawnPhase env w).state.player = w.state.player ∧
    (spawnPhase env w).state.gameOver = w.state.gameOver ∧
    (spawnPhase env w).state.gameWon = w.state.gameWon ∧
    (spawnPhase env w).state.score = w.state.score ∧
    (spawnPhase env w).state.combo = w.state.combo ∧
    (spawnPhase env w).state.comboTimer = w.state.comboTimer ∧
    (spawnPhase env w).state.multiplier = w.state.multiplier ∧
    (spawnPhase env w).state.level = w.state.level ∧
    (spawnPhase env w).enemyPool.length = w.enemyPool.length ∧
    (spawnPhase env w).particlePool.length = w.particlePool.length ∧
    (spawnPhase env w).projectilePool = w.projectilePool ∧
    (spawnPhase env w).powerupPool = w.powerupPool ∧
    (spawnPhase env w).highScoreRef = w.highScoreRef ∧
    (spawnPhase env w).storage = w.storage := by
  unfold spawnPhase
  split
  · split
    · rcases hsb : spawnBoss env w.enemyPool w.particlePool with ⟨en2, pa2⟩
      have hlen := length_spawnBoss env w.enemyPool w.particlePool
      rw [hsb] at hlen
      simp only [hsb]
      refine ⟨?_, ?_, ?_, ?_, ?_, ?_, ?_, ?_, hlen.1, hlen.2, ?_, ?_, ?_, ?_⟩ <;>
        trivial
    · split
      · exact ⟨rfl, rfl, rfl, rfl, rfl, rfl, rfl, rfl,
          length_spawnEnemy env w.enemyPool, rfl, rfl, rfl, rfl, rfl⟩
      · simp
  · simp

/-- The power-up spawn phase only touches the power-up pool (size
preserved) and `lastPowerupSpawn`. -/
theorem powerUpSpawnPhase_spec (env : Env) (w : World) :
    (powerUpSpawnPhase env w).state.player = w.state.player ∧
    (powerUpSpawnPhase env w).state.gameOver = w.state.gameOver ∧
    (powerUpSpawnPhase env w).state.gameWon = w.state.gameWon ∧
    (powerUpSpawnPhase env w).state.score = w.state.score ∧
    (powerUpSpawnPhase env w).state.combo = w.state.combo ∧
    (powerUpSpawnPhase env w).state.comboTimer = w.state.comboTimer ∧
    (powerUpSpawnPhase env w).state.multiplier = w.state.multiplier ∧
    (powerUpSpawnPhase env w).state.level = w.state.level ∧
    (powerUpSpawnPhase env w).state.bossActive = w.state.bossActive ∧
    (powerUpSpawnPhase env w).enemyPool = w.enemyPool ∧
    (powerUpSpawnPhase env w).particlePool = w.particlePool ∧
    (powerUpSpawnPhase env w).projectilePool = w.projectilePool ∧
    (powerUpSpawnPhase env w).powerupPool.length = w.powerupPool.length ∧
    (powerUpSpawnPhase env w).highScoreRef = w.highScoreRef ∧
    (powerUpSpawnPhase env w).storage = w.storage := by
  unfold powerUpSpawnPhase
  split
  · exact ⟨rfl, rfl, rfl, rfl, rfl, rfl, rfl, rfl, rfl, rfl, rfl, rfl,
      length_spawnPowerUp env w.powerupPool, rfl, rfl⟩
  · simp

/-- The level phase only touches `level` and the particle pool (size
preserved). -/
theorem levelPhase_spec (env : Env) (w : World) :
    (levelPhase env w).state.player = w.state.player ∧
    (levelPhase env w).state.gameOver = w.state.gameOver ∧
    (levelPhase env w).state.gameWon = w.state.gameWon ∧
    (levelPhase env w).state.score = w.state.score ∧
    (levelPhase env w).state.combo = w.state.combo ∧
    (levelPhase env w).state.comboTimer = w.state.comboTimer ∧
    (levelPhase env w).state.multiplier = w.state.multiplier ∧
    (levelPhase env w).state.bossActive = w.state.bossActive ∧
    (levelPhase env w).enemyPool = w.enemyPool ∧
    (levelPhase env w).particlePool.length = w.particlePool.length ∧
    (levelPhase env w).projectilePool = w.projectilePool ∧
    (levelPhase env w).powerupPool = w.powerupPool ∧
    (levelPhase env w).highScoreRef = w.highScoreRef ∧
    (levelPhase env w).storage = w.storage := by
  unfold levelPhase
  split
  · exact ⟨rfl, rfl, rfl, rfl, rfl, rfl, rfl, rfl, rfl,
      length_createParticle _ _ _ _ _ _ _, rfl, rfl, rfl, rfl⟩
  · simp

/-- The queued boss-attack shake updates only touch `screenShake`. -/
theorem applyBossShake_spec (k : Nat) (st : GameState) :
    (applyBossShake k st).player = st.player ∧
    (applyBossShake k st).gameOver = st.gameOver ∧
    (applyBossShake k st).gameWon = st.gameWon ∧
    (applyBossShake k st).score = st.score ∧
    (applyBossShake k st).combo = st.combo ∧
    (applyBossShake k st).comboTimer = st.comboTimer ∧
    (applyBossShake k st).multiplier = st.multiplier ∧
    (applyBossShake k st).level = st.level ∧
    (applyBossShake k st).bossActive = st.bossActive := by
  induction k generalizing st with
  | zero => exact ⟨rfl, rfl, rfl, rfl, rfl, rfl, rfl, rfl, rfl⟩
  | succ k ih =>
    obtain ⟨i1, i2, i3, i4, i5, i6, i7, i8, i9⟩ :=
      ih { st with screenShake := min (st.screenShake + 3) 10 }
    exact ⟨i1, i2, i3, i4, i5, i6, i7, i8, i9⟩

/-- The combo decay preserves the combo/timer coupling. -/
theorem decayCombo_comboInv (dt : ℚ) (st : GameState) (h : comboInv st) :
    comboInv (decayCombo dt st) := by
  unfold comboInv at h ⊢
  unfold decayCombo
  dsimp only
  split
  · split
    · intro _
      rfl
    · next ht =>
      intro habs
      exact absurd habs ht
  · exact h

/-- The combo decay only touches `combo` and `comboTimer`. -/
theorem decayCombo_frame (dt : ℚ) (st : GameState) :
    (decayCombo dt st).player = st.player ∧
    (decayCombo dt st).gameOver = st.gameOver ∧
    (decayCombo dt st).gameWon = st.gameWon ∧
    (decayCombo dt st).score = st.score ∧
    (decayCombo dt st).multiplier = st.multiplier ∧
    (decayCombo dt st).level = st.level ∧
    (decayCombo dt st).bossActive = st.bossActive ∧
    (decayCombo dt st).screenShake = st.screenShake := by
  unfold decayCombo
  dsimp only
  split
  · split
    · exact ⟨rfl, rfl, rfl, rfl, rfl, rfl, rfl, rfl⟩
    · exact ⟨rfl, rfl, rfl, rfl, rfl, rfl, rfl, rfl⟩
  · exact ⟨rfl, rfl, rfl, rfl, rfl, rfl, rfl, rfl⟩

/-- The shake decay only touches `screenShake`. -/
theorem decayShake_frame (dt : ℚ) (st : GameState) :
    (decayShake dt st).player = st.player ∧
    (decayShake dt st).gameOver = st.gameOver ∧
    (decayShake dt st).gameWon = st.gameWon ∧
    (decayShake dt st).score = st.score ∧
    (decayShake dt st).multiplier = st.multiplier ∧
    (decayShake dt st).level = st.level ∧
    (decayShake dt st).bossActive = st.bossActive ∧
    (decayShake dt st).combo = st.combo ∧
    (decayShake dt st).comboTimer = st.comboTimer := by
  unfold decayShake
  split
  · exact ⟨rfl, rfl, rfl, rfl, rfl, rfl, rfl, rfl, rfl⟩
  · exact ⟨rfl, rfl, rfl, rfl, rfl, rfl, rfl, rfl, rfl⟩

/-- The invulnerability decay leaves the lives counter alone. -/
theorem decayInvulnerable_lives (dt : ℚ) (p : Player) :
    (decayInvulnerable dt p).lives = p.lives := by
  unfold decayInvulnerable
  split
  · rfl
  · rfl

/-- The decay phase: pools and refs survive; lives, the flags and the
scoring fields survive; the combo/timer coupling is preserved. -/
theorem decayPhase_spec (dt : ℚ) (w : World) :
    (decayPhase dt w).projectilePool = w.projectilePool ∧
    (decayPhase dt w).enemyPool = w.enemyPool ∧
    (decayPhase dt w).particlePool = w.particlePool ∧
    (decayPhase dt w).powerupPool = w.powerupPool ∧
    (decayPhase dt w).highScoreRef = w.highScoreRef ∧
    (decayPhase dt w).storage = w.storage ∧
    (decayPhase dt w).state.player.lives = w.state.player.lives ∧
    (decayPhase dt w).state.gameOver = w.state.gameOver ∧
    (decayPhase dt w).state.gameWon = w.state.gameWon ∧
    (decayPhase dt w).state.score = w.state.score ∧
    (decayPhase dt w).state.multiplier = w.state.multiplier ∧
    (decayPhase dt w).state.level = w.state.level ∧
    (decayPhase dt w).state.bossActive = w.state.bossActive ∧
    (comboInv w.state → comboInv (decayPhase dt w).state) := by
  unfold decayPhase
  dsimp only
  exact ⟨rfl, rfl, rfl, rfl, rfl, rfl, by
      obtain ⟨s1, _, _, _, _, _, _, _, _⟩ := decayShake_frame dt _
      rw [s1]
      obtain ⟨d1, _, _, _, _, _, _, _⟩ := decayCombo_frame dt _
      rw [d1]
      exact decayInvulnerable_lives dt w.state.player,
    by
      obtain ⟨_, s2, _, _, _, _, _, _, _⟩ := decayShake_frame dt _
      rw [s2]
      obtain ⟨_, d2, _, _, _, _, _, _⟩ := decayCombo_frame dt _
      rw [d2],
    by
      obtain ⟨_, _, s3, _, _, _, _, _, _⟩ := decayShake_frame dt _
      rw [s3]
      obtain ⟨_, _, d3, _, _, _, _, _⟩ := decayCombo_frame dt _
      rw [d3],
    by
      obtain ⟨_, _, _, s4, _, _, _, _, _⟩ := decayShake_frame dt _
      rw [s4]
      obtain ⟨_, _, _, d4, _, _, _, _⟩ := decayCombo_frame dt _
      rw [d4],
    by
      obtain ⟨_, _, _, _, s5, _, _, _, _⟩ := decayShake_frame dt _
      rw [s5]
      obtain ⟨_, _, _, _, d5, _, _, _⟩ := decayCombo_frame dt _
      rw [d5],
    by
      obtain ⟨_, _, _, _, _, s6, _, _, _⟩ := decayShake_frame dt _
      rw [s6]
      obtain ⟨_, _, _, _, _, d6, _, _⟩ := decayCombo_frame dt _
      rw [d6],
    by
      obtain ⟨_, _, _, _, _, _, s7, _, _⟩ := decayShake_frame dt _
      rw [s7]
      obtain ⟨_, _, _, _, _, _, d7, _⟩ := decayCombo_frame dt _
      rw [d7],
    by
      intro hc
      have hc2 : comboInv
          { w.state with
            powerupEffects := decayEffects dt w.state.powerupEffects,
            player := decayInvulnerable dt w.state.player } := hc
      have := decayCombo_comboInv dt _ hc2
      obtain ⟨_, _, _, _, _, _, _, s8, s9⟩ := decayShake_frame dt
        (decayCombo dt
          { w.state with
            powerupEffects := decayEffects dt w.state.powerupEffects,
            player := decayInvulnerable dt w.state.player })
      unfold comboInv at this ⊢
      rw [s8, s9]
      exact this⟩


/-! ## The tail of the step as one composable relation -/

theorem StepRel.trans {u v w : World} (h1 : StepRel u v) (h2 : StepRel v w) :
    StepRel u w := by
  obtain ⟨a1, a2, a3, a4, a5, a6, a7, a8⟩ := h1
  obtain ⟨b1, b2, b3, b4, b5, b6, b7, b8⟩ := h2
  refine ⟨b1.trans a1, b2.trans a2, b3.trans a3, b4.trans a4,
    fun h => b5 (a5 h), fun h => b6 (a6 h), fun h => b7 (a7 h), fun hp => ?_⟩
  obtain ⟨hv, hl⟩ := a8 hp
  have hp2 : v.state.player.invulnerable > 0 := by rw [hv]; exact hp
  obtain ⟨hv2, hl2⟩ := b8 hp2
  exact ⟨hv2.trans hv, fun hc => le_trans (hl hc) (hl2 (a7 hc))⟩

theorem stepRel_powerUpMovePhase (dt : ℚ) (u : World) :
    StepRel u (powerUpMovePhase dt u) := by
  unfold StepRel powerUpMovePhase
  simp

theorem stepRel_particleMovePhase (dt : ℚ) (u : World) :
    StepRel u (particleMovePhase dt u) := by
  unfold StepRel particleMovePhase
  simp

theorem stepRel_projEnemyPass (env : Env) (u : World) :
    StepRel u (projEnemyPass env u) := by
  obtain ⟨p1, p2, p3, p4, p5, p6, p7, p8, p9⟩ := projEnemyPass_spec env u
  refine ⟨p1, p2, p6, by rw [p7], fun h => ?_, p5,
    by rw [p3]; exact fun h => h, fun hp => ?_⟩
  · unfold livesInv at h ⊢
    rw [p3, p4]
    exact h
  · rw [p3]
    exact ⟨rfl, fun _ => le_refl _⟩

theorem stepRel_playerEnemiesPass (env : Env) (u : World) :
    StepRel u (playerEnemiesPass env u) := by
  obtain ⟨p1, p2, p3, p4, p5, p6, p7, p8, p9, p10, p11, p12, p13, p14⟩ :=
    playerEnemiesPass_spec env u
  refine ⟨by rw [p3], p4, p1, by rw [p2], p13, fun h => ?_, fun h => ?_,
    fun hp => ?_⟩
  · unfold comboInv at h ⊢
    rw [p6, p7]
    exact h
  · exact le_trans p12 h
  · rw [p14 hp]
    exact ⟨rfl, fun _ => le_refl _⟩

theorem stepRel_playerProjPass (env : Env) (u : World) :
    StepRel u (playerProjPass env u) := by
  obtain ⟨p1, p2, p3, p4, p5, p6, p7, p8, p9, p10, p11, p12, p13, p14⟩ :=
    playerProjPass_spec env u
  refine ⟨p3, by rw [p4], p1, by rw [p2], p13, fun h => ?_, fun h => ?_,
    fun hp => ?_⟩
  · unfold comboInv at h ⊢
    rw [p6, p7]
    exact h
  · exact le_trans p12 h
  · rw [p14 hp]
    exact ⟨rfl, fun _ => le_refl _⟩

theorem stepRel_powerUpPass (env : Env) (u : World) :
    StepRel u (powerUpPass env u) := by
  obtain ⟨p1, p2, p3, p4, p5, p6, p7, p8, p9, p10, p11, p12, p13, p14, p15,
    p16⟩ := powerUpPass_spec env u
  refine ⟨by rw [p3], by rw [p4], p1, p2, p16, fun h => ?_, p15, fun hp => ?_⟩
  · unfold comboInv at h ⊢
    rw [p6, p7]
    exact h
  · exact ⟨p13, p14⟩

theorem stepRel_spawnPhase (env : Env) (u : World) :
    StepRel u (spawnPhase env u) := by
  obtain ⟨p1, p2, p3, p4, p5, p6, p7, p8, p9, p10, p11, p12, p13, p14⟩ :=
    spawnPhase_spec env u
  refine ⟨by rw [p11], p9, p10, by rw [p12], fun h => ?_, fun h => ?_,
    by rw [p1]; exact fun h => h, fun hp => ?_⟩
  · unfold livesInv at h ⊢
    rw [p1, p2]
    exact h
  · unfold comboInv at h ⊢
    rw [p5, p6]
    exact h
  · rw [p1]
    exact ⟨rfl, fun _ => le_refl _⟩

theorem stepRel_powerUpSpawnPhase (env : Env) (u : World) :
    StepRel u (powerUpSpawnPhase env u) := by
  obtain ⟨p1, p2, p3, p4, p5, p6, p7, p8, p9, p10, p11, p12, p13, p14, p15⟩ :=
    powerUpSpawnPhase_spec env u
  refine ⟨by rw [p12], by rw [p10], by rw [p11], p13, fun h => ?_, fun h => ?_,
    by rw [p1]; exact fun h => h, fun hp => ?_⟩
  · unfold livesInv at h ⊢
    rw [p1, p2]
    exact h
  · unfold comboInv at h ⊢
    rw [p5, p6]
    exact h
  · rw [p1]
    exact ⟨rfl, fun _ => le_refl _⟩

theorem stepRel_levelPhase (env : Env) (u : World) :
    StepRel u (levelPhase env u) := by
  obtain ⟨p1, p2, p3, p4, p5, p6, p7, p8, p9, p10, p11, p12, p13, p14⟩ :=
    levelPhase_spec env u
  refine ⟨by rw [p11], by rw [p9], p10, by rw [p12], fun h => ?_, fun h => ?_,
    by rw [p1]; exact fun h => h, fun hp => ?_⟩
  · unfold livesInv at h ⊢
    rw [p1, p2]
    exact h
  · unfold comboInv at h ⊢
    rw [p5, p6]
    exact h
  · rw [p1]
    exact ⟨rfl, fun _ => le_refl _⟩

/-- Every pass after the enemy loop, composed. -/
theorem stepRel_tailChain (env : Env) (dt : ℚ) (w1 : World) :
    StepRel w1 (tailChain env dt w1) := by
  unfold tailChain
  exact ((((((((stepRel_powerUpMovePhase dt w1).trans
    (stepRel_particleMovePhase dt _)).trans
    (stepRel_projEnemyPass env _)).trans
    (stepRel_playerEnemiesPass env _)).trans
    (stepRel_playerProjPass env _)).trans
    (stepRel_powerUpPass env _)).trans
    (stepRel_spawnPhase env _)).trans
    (stepRel_powerUpSpawnPhase env _)).trans
    (stepRel_levelPhase env _)


/-- The decay phase's effect on the player is exactly the invulnerability
countdown. -/
theorem decayPhase_player (dt : ℚ) (w : World) :
    (decayPhase dt w).state.player = decayInvulnerable dt w.state.player := by
  unfold decayPhase
  dsimp only
  obtain ⟨s1, _, _, _, _, _, _, _, _⟩ := decayShake_frame dt
    (decayCombo dt
      { w.state with
        powerupEffects := decayEffects dt w.state.powerupEffects,
        player := decayInvulnerable dt w.state.player })
  rw [s1]
  obtain ⟨d1, _, _, _, _, _, _, _⟩ := decayCombo_frame dt
    { w.state with
      powerupEffects := decayEffects dt w.state.powerupEffects,
      player := decayInvulnerable dt w.state.player }
  rw [d1]

/-- Projectile movement only rewrites the projectile pool, keeping its
size. -/
theorem projMovePhase_spec (env : Env) (dt : ℚ) (u : World) :
    (projMovePhase env dt u).projectilePool.length =
      u.projectilePool.length ∧
    (projMovePhase env dt u).state = u.state ∧
    (projMovePhase env dt u).enemyPool = u.enemyPool ∧
    (projMovePhase env dt u).particlePool = u.particlePool ∧
    (projMovePhase env dt u).powerupPool = u.powerupPool := by
  unfold projMovePhase
  simp

/-- One simulation step preserves the pool sizes, the game-over/lives and
combo/timer couplings, and the lives cap; and while the invulnerability
window outlasts the tick, the step never takes a life. -/
theorem updateGame_spec (env : Env) (dt : ℚ) (w : World) :
    (updateGame env dt w).projectilePool.length = w.projectilePool.length ∧
    (updateGame env dt w).enemyPool.length = w.enemyPool.length ∧
    (updateGame env dt w).particlePool.length = w.particlePool.length ∧
    (updateGame env dt w).powerupPool.length = w.powerupPool.length ∧
    (livesInv w.state → livesInv (updateGame env dt w).state) ∧
    (comboInv w.state → comboInv (updateGame env dt w).state) ∧
    (w.state.player.lives ≤ 5 → (updateGame env dt w).state.player.lives ≤ 5) ∧
    (0 ≤ dt → dt < w.state.player.invulnerable → w.state.player.lives ≤ 5 →
      w.state.player.lives ≤ (updateGame env dt w).state.player.lives) := by
  unfold updateGame
  split
  · exact ⟨rfl, rfl, rfl, rfl, fun h => h, fun h => h, fun h => h,
      fun _ _ _ => le_refl _⟩
  · rcases hEP : enemyPass env (dt * timeMultiplier w.state)
        (projMovePhase env dt (decayPhase dt w)) with ⟨w1, bumps⟩
    simp only [hEP]
    obtain ⟨d1, d2, d3, d4, d5, d6, d7, d8, d9, d10, d11, d12, d13, d14⟩ :=
      decayPhase_spec dt w
    obtain ⟨m1, m2, m3, m4, m5⟩ := projMovePhase_spec env dt (decayPhase dt w)
    obtain ⟨e1, e2, e3, e4, e5, e6, e7, e8, e9, e10, e11, e12, e13, e14⟩ :=
      enemyPass_spec env (dt * timeMultiplier w.state)
        (projMovePhase env dt (decayPhase dt w))
    rw [hEP] at e1 e2 e3 e4 e5 e6 e7 e8 e9 e10 e11 e12 e13 e14
    obtain ⟨t1, t2, t3, t4, t5, t6, t7, t8⟩ := stepRel_tailChain env dt w1
    obtain ⟨a1, a2, a3, a4, a5, a6, a7, a8, a9⟩ :=
      applyBossShake_spec bumps (tailChain env dt w1).state
    have hdp := decayPhase_player dt w
    have hlivesD : (decayPhase dt w).state.player.lives = w.state.player.lives :=
      d7
    have hXstate : (projMovePhase env dt (decayPhase dt w)).state =
        (decayPhase dt w).state := m2
    refine ⟨?_, ?_, ?_, ?_, ?_, ?_, ?_, ?_⟩
    · dsimp only
      calc (tailChain env dt w1).projectilePool.length
          = w1.projectilePool.length := t1
        _ = (projMovePhase env dt (decayPhase dt w)).projectilePool.length := e3
        _ = (decayPhase dt w).projectilePool.length := m1
        _ = w.projectilePool.length := by rw [d1]
    · dsimp only
      calc (tailChain env dt w1).enemyPool.length
          = w1.enemyPool.length := t2
        _ = (projMovePhase env dt (decayPhase dt w)).enemyPool.length := e4
        _ = (decayPhase dt w).enemyPool.length := by rw [m3]
        _ = w.enemyPool.length := by rw [d2]
    · dsimp only
      calc (tailChain env dt w1).particlePool.length
          = w1.particlePool.length := t3
        _ = (projMovePhase env dt (decayPhase dt w)).particlePool.length := by
            rw [e1]
        _ = (decayPhase dt w).particlePool.length := by rw [m4]
        _ = w.particlePool.length := by rw [d3]
    · dsimp only
      calc (tailChain env dt w1).powerupPool.length
          = w1.powerupPool.length := t4
        _ = (projMovePhase env dt (decayPhase dt w)).powerupPool.length := by
            rw [e2]
        _ = (decayPhase dt w).powerupPool.length := by rw [m5]
        _ = w.powerupPool.length := by rw [d4]
    · intro h
      have h1 : livesInv (decayPhase dt w).state := by
        unfold livesInv at h ⊢
        rw [d7, d8]
        exact h
      have h2 : livesInv w1.state := e13 (hXstate ▸ h1)
      have h3 : livesInv (tailChain env dt w1).state := t5 h2
      unfold livesInv at h3 ⊢
      rw [a1, a2]
      exact h3
    · intro h
      have h1 : comboInv (decayPhase dt w).state := d14 h
      have h2 : comboInv w1.state := by
        unfold comboInv
        rw [e7, e6, hXstate]
        exact h1
      have h3 : comboInv (tailChain env dt w1).state := t6 h2
      unfold comboInv at h3 ⊢
      rw [a5, a6]
      exact h3
    · intro h
      rw [a1]
      have h1 : w1.state.player.lives ≤ 5 := by
        refine le_trans e12 ?_
        rw [hXstate, d7]
        exact h
      exact le_trans (t7 h1) (le_refl _)
    · intro hdt hlt h
      rw [a1]
      have hposD : (decayPhase dt w).state.player.invulnerable > 0 := by
        rw [hdp]
        unfold decayInvulnerable
        have hwpos : w.state.player.invulnerable > 0 := by linarith
        rw [if_pos hwpos]
        dsimp only
        linarith
      have hstate1 : w1.state = (decayPhase dt w).state := by
        rw [← hXstate]
        exact e14 (by rw [hXstate]; exact hposD)
      have hl1 : w1.state.player.lives = w.state.player.lives := by
        rw [hstate1, d7]
      have hi1 : w1.state.player.invulnerable > 0 := by
        rw [hstate1]
        exact hposD
      obtain ⟨_, hmono⟩ := t8 hi1
      have := hmono (by rw [hl1]; exact h)
      rw [hl1] at this
      exact this


/-- A terminal (or not-started) state freezes the simulation: the early
return at line 591. -/
theorem updateGame_frozen (env : Env) (dt : ℚ) (w : World)
    (h : w.state.gameOver = true ∨ w.state.gameWon = true) :
    updateGame env dt w = w := by
  unfold updateGame
  rcases h with h | h <;> simp [h]

/-- The score added by a kill is the base points times `pureMultiplier` of
the post-kill combo, and the stored `multiplier` field is rewritten only
when that combo exceeds five. -/
theorem applyKillScore_score (env : Env) (e : Enemy) (st : GameState)
    (particles : List Particle) :
    (applyKillScore env e st particles).1.score =
      st.score + basePoints e.type * pureMultiplier (st.combo + 1) ∧
    (st.combo + 1 > 5 →
      (applyKillScore env e st particles).1.multiplier =
        pureMultiplier (st.combo + 1)) ∧
    (¬st.combo + 1 > 5 →
      (applyKillScore env e st particles).1.multiplier = st.multiplier) := by
  by_cases hc : st.combo + 1 > 5 <;> by_cases hb : e.type = EnemyType.boss <;>
    simp [applyKillScore, pureMultiplier, hc, hb]

/-- An empty active count means every slot is inactive. -/
theorem countActiveEnemies_eq_zero (pool : List Enemy)
    (h : countActiveEnemies pool = 0) : ∀ e ∈ pool, e.active = false := by
  unfold countActiveEnemies at h
  rw [List.length_eq_zero] at h
  intro e he
  by_contra habs
  have : e ∈ pool.filter (fun e => e.active) := by
    rw [List.mem_filter]
    exact ⟨he, by simpa using habs⟩
  rw [h] at this
  exact absurd this (List.not_mem_nil e)


/-- With the gate conditions met, the spawn phase produces exactly one
boss. -/
theorem spawnPhase_boss (env : Env) (w : World)
    (ht : env.now - w.state.lastEnemySpawn > spawnRate w.state.level)
    (hl : w.state.level ≥ BOSS_SPAWN_LEVEL)
    (hb : w.state.bossActive = false)
    (hc : countActiveEnemies w.enemyPool = 0)
    (hne : w.enemyPool ≠ []) :
    countActiveEnemies (spawnPhase env w).enemyPool = 1 ∧
    (∀ e ∈ (spawnPhase env w).enemyPool, e.active = true →
      e.type = EnemyType.boss) ∧
    (spawnPhase env w).state.bossActive = true := by
  have hall := countActiveEnemies_eq_zero w.enemyPool hc
  cases hpool : w.enemyPool with
  | nil => exact absurd hpool hne
  | cons x rest =>
    have hx : x.active = false := hall x (hpool ▸ List.mem_cons_self x rest)
    have hrest : ∀ e ∈ rest, e.active = false := fun e he =>
      hall e (hpool ▸ List.mem_cons_of_mem x he)
    have hboss : spawnBoss env w.enemyPool w.particlePool =
        (bossInit x :: rest,
         createParticle env (HALF_CANVAS_WIDTH - 50 + 50) (50 + 50)
           ParticleType.text "#ff0000" (some "NIGHTMARE AWAKENS!")
           w.particlePool) := by
      unfold spawnBoss
      rw [hpool]
      have hfil : ¬((x :: rest).filter (fun e => !e.active)).isEmpty = true := by
        simp [List.filter_cons, hx]
      rw [if_neg hfil]
      rw [acquireSlotIdx_head_free _ _ 0 x rest hx]
    have hres : (spawnPhase env w).enemyPool = bossInit x :: rest ∧
        (spawnPhase env w).state.bossActive = true := by
      unfold spawnPhase
      rw [if_pos ht, if_pos ⟨hl, hb, hc⟩, hboss]
      exact ⟨rfl, rfl⟩
    refine ⟨?_, ?_, hres.2⟩
    · rw [hres.1]
      unfold countActiveEnemies
      rw [List.filter_cons]
      have hba : (bossInit x).active = true := rfl
      have hfr : rest.filter (fun e => e.active) = [] := by
        rw [List.filter_eq_nil]
        intro e he
        simp [hrest e he]
      simp [hba, hfr]
    · rw [hres.1]
      intro e he hea
      rcases List.mem_cons.mp he with rfl | he2
      · rfl
      · exact absurd hea (by simp [hrest e he2])

/-- While the boss flag is latched, the spawn phase does nothing at all. -/
theorem spawnPhase_bossBusy (env : Env) (w : World)
    (h : w.state.bossActive = true) : spawnPhase env w = w := by
  unfold spawnPhase
  split
  · simp [h]
  · rfl


/-- On a one-slot view of the pools, any active projectile hitting any
active enemy deactivates and deals its damage — the pass never asks who
fired the projectile. -/
theorem projEnemyPass_single (env : Env) (w : World) (p : Projectile)
    (e : Enemy) (hp : w.projectilePool = [p]) (he : w.enemyPool = [e])
    (hpa : p.active = true) (hea : e.active = true)
    (hc : checkCollision p.rect e.rect = true)
    (hsurv : 0 < e.health - p.damage) :
    (projEnemyPass env w).projectilePool = [{ p with active := false }] ∧
    (projEnemyPass env w).enemyPool =
      [{ e with health := e.health - p.damage }] := by
  unfold projEnemyPass
  rw [hp, he]
  have hinner : projEnemyInner env (p, [e], w.state, w.particlePool) 0 =
      ({ p with active := false },
       [{ e with health := e.health - p.damage }], w.state,
       (List.range 5).foldl
         (fun ps2 _ =>
           createParticle env (e.x + e.width / 2) (e.y + e.height / 2)
             ParticleType.spark "#f07e41" none ps2) w.particlePool) := by
    unfold projEnemyInner
    dsimp only
    have hget : ([e] : List Enemy)[0]? = some e := rfl
    rw [hget]
    simp only [hea, hc, Bool.not_true, if_true, if_false, reduceIte]
    rw [if_neg (not_le.mpr hsurv)]
    rfl
  have houter : projEnemyOuter env ([p], [e], w.state, w.particlePool) 0 =
      ([{ p with active := false }],
       [{ e with health := e.health - p.damage }], w.state,
       (List.range 5).foldl
         (fun ps2 _ =>
           createParticle env (e.x + e.width / 2) (e.y + e.height / 2)
             ParticleType.spark "#f07e41" none ps2) w.particlePool) := by
    unfold projEnemyOuter
    dsimp only
    have hget : ([p] : List Projectile)[0]? = some p := rfl
    rw [hget]
    dsimp only
    rw [if_neg (by simp [hpa])]
    have hrange : List.range ([e] : List Enemy).length = [0] := rfl
    rw [hrange]
    rw [List.foldl_cons, List.foldl_nil, hinner]
    rfl
  have hrange1 : List.range ([p] : List Projectile).length = [0] := rfl
  rw [hrange1, List.foldl_cons, List.foldl_nil, houter]
  exact ⟨rfl, rfl⟩

/-- `shoot` keeps the projectile pool's size and leaves the other pools
alone; on a saturated pool it activates nothing (but still stamps
`lastShot` when the cooldown has passed). -/
theorem shoot_spec (t : ℚ) (w : World) :
    (shoot t w).projectilePool.length = w.projectilePool.length ∧
    (shoot t w).enemyPool = w.enemyPool ∧
    (shoot t w).particlePool = w.particlePool ∧
    (shoot t w).powerupPool = w.powerupPool ∧
    ((∀ p ∈ w.projectilePool, p.active = true) →
      (shoot t w).projectilePool = w.projectilePool) := by
  unfold shoot
  dsimp only
  split <;> split
  · exact ⟨rfl, rfl, rfl, rfl, fun _ => rfl⟩
  · refine ⟨?_, rfl, rfl, rfl, fun hsat => ?_⟩
    · apply foldl_preserve
        (fun (qs : List Projectile) => qs.length = w.projectilePool.length)
      · rfl
      · intro qs a h
        rw [length_acquireSlotIdx]
        exact h
    · apply foldl_preserve
        (fun (qs : List Projectile) => qs = w.projectilePool)
      · rfl
      · intro qs a h
        rw [h]
        exact acquireSlotIdx_saturated _ _ 0 w.projectilePool hsat
  · exact ⟨rfl, rfl, rfl, rfl, fun _ => rfl⟩
  · refine ⟨?_, rfl, rfl, rfl, fun hsat => ?_⟩
    · apply foldl_preserve
        (fun (qs : List Projectile) => qs.length = w.projectilePool.length)
      · rfl
      · intro qs a h
        rw [length_acquireSlotIdx]
        exact h
    · apply foldl_preserve
        (fun (qs : List Projectile) => qs = w.projectilePool)
      · rfl
      · intro qs a h
        rw [h]
        exact acquireSlotIdx_saturated _ _ 0 w.projectilePool hsat

/-- A fully inactive pool stays within capacity after a spawn: saturation
makes `spawnEnemy` a strict no-op. -/
theorem spawnEnemy_saturated (env : Env) (pool : List Enemy)
    (h : ∀ e ∈ pool, e.active = true) : spawnEnemy env pool = pool := by
  unfold spawnEnemy
  exact acquireSlotIdx_saturated _ _ 0 pool h

/-- Saturation makes `spawnPowerUp` a strict no-op. -/
theorem spawnPowerUp_saturated (env : Env) (pool : List PowerUp)
    (h : ∀ p ∈ pool, p.active = true) : spawnPowerUp env pool = pool := by
  unfold spawnPowerUp
  exact acquireSlotIdx_saturated _ _ 0 pool h

/-- Saturation makes `spawnBoss` a strict no-op. -/
theorem spawnBoss_saturated (env : Env) (enemies : List Enemy)
    (particles : List Particle) (h : ∀ e ∈ enemies, e.active = true) :
    spawnBoss env enemies particles = (enemies, particles) := by
  unfold spawnBoss
  rw [if_pos]
  rw [List.isEmpty_iff, List.filter_eq_nil]
  intro e he
  simp [h e he]


/-! ## Claims -/

/-- C1 (counterexample): the invulnerability guard of the player/enemy
collision pass is evaluated once for the whole pass, so two enemies
overlapping the player in the same simulation step each take a life — the
claim's "a second overlapping enemy in the same tick must not decrement
lives again" fails: from 3 lives and no invulnerability, one step with two
overlapping enemies ends at 1 life even though the countdown was set to
2000 ms by the first hit. -/
theorem c1_same_step_double_hit :
    doubleHitWorld.state.player.lives = 3 ∧
    doubleHitWorld.state.player.invulnerable = 0 ∧
    (updateGame env0 16 doubleHitWorld).state.player.invulnerable = 2000 ∧
    (updateGame env0 16 doubleHitWorld).state.player.lives = 1 := by
  decide

/-- C1 (amended): once the invulnerability countdown is running and
outlasts the tick, a simulation step never decrements lives — the
hoisted guards skip both player-collision passes and the per-enemy
bottom-edge guard blocks, so lives can only stay or grow (health
power-ups); within the very step that sets the countdown, however,
later overlaps of the same pass may still each take a life. -/
theorem c1_invulnerability_window (env : Env) (dt : ℚ) (w : World)
    (hdt : 0 ≤ dt) (hinv : dt < w.state.player.invulnerable)
    (hcap : w.state.player.lives ≤ 5) :
    w.state.player.lives ≤ (updateGame env dt w).state.player.lives :=
  (updateGame_spec env dt w).2.2.2.2.2.2.2 hdt hinv hcap

/-- C1 (witness): the double-overlap world inside the 2000 ms window loses
no life over a 16 ms step. -/
theorem c1_invulnerability_window_witness :
    invulnWorld.state.player.lives ≤
      (updateGame env0 16 invulnWorld).state.player.lives :=
  c1_invulnerability_window env0 16 invulnWorld (by decide) (by decide)
    (by decide)

/-- C2 (counterexample): lives can go negative — with one life left and
two enemies overlapping the player, the same hoisted guard lets both hits
land in one step, ending at `lives = -1` (with game over set). -/
theorem c2_double_hit_negative_lives :
    lastLifeWorld.state.player.lives = 1 ∧
    (updateGame env0 16 lastLifeWorld).state.player.lives = -1 ∧
    (updateGame env0 16 lastLifeWorld).state.gameOver = true := by
  decide

/-- C2 (amended): whenever the game-over flag is clear at least one life
remains (so lives dip below zero only inside the very step that latches
game over), and once the flag is set every subsequent step returns the
state unchanged — the game-over transition cannot re-execute without a
reset. -/
theorem c2_lives_floor_and_single_transition :
    (∀ (env : Env) (dt : ℚ) (w : World),
      (w.state.gameOver = false → 1 ≤ w.state.player.lives) →
      (updateGame env dt w).state.gameOver = false →
        1 ≤ (updateGame env dt w).state.player.lives) ∧
    (∀ (env : Env) (dt : ℚ) (w : World), w.state.gameOver = true →
      updateGame env dt w = w) :=
  ⟨fun env dt w h => (updateGame_spec env dt w).2.2.2.2.1 h,
   fun env dt w h => updateGame_frozen env dt w (Or.inl h)⟩

/-- C2 (witness): the coupling holds across the double-hit step, and a
game-over world is frozen. -/
theorem c2_lives_floor_and_single_transition_witness :
    ((updateGame env0 16 lastLifeWorld).state.gameOver = false →
      1 ≤ (updateGame env0 16 lastLifeWorld).state.player.lives) ∧
    updateGame env0 16 gameOverWorld = gameOverWorld :=
  ⟨c2_lives_floor_and_single_transition.1 env0 16 lastLifeWorld (by decide),
   c2_lives_floor_and_single_transition.2 env0 16 gameOverWorld (by decide)⟩

/-- C3 (counterexample): the projectile/enemy collision pass never checks
who fired the projectile, so an enemy-fired projectile (velocity encoded
in `width`/`height`, here `(2, -2)`) overlapping a tank damages it: after
one step the tank's health has dropped from 2 to 1 and the projectile is
consumed — refuting "projectiles fired by enemies never damage enemies". -/
theorem c3_enemy_projectile_friendly_fire :
    isEnemyProjectile strayEnemyProjectile = true ∧
    (friendlyFireWorld.enemyPool[0]?).map (fun e => e.health) = some 2 ∧
    ((updateGame env0 16 friendlyFireWorld).enemyPool[0]?).map
      (fun e => e.health) = some 1 ∧
    ((updateGame env0 16 friendlyFireWorld).projectilePool[0]?).map
      (fun p => p.active) = some false := by
  decide

/-- C3 (amended): on an AABB overlap between ANY active projectile in the
shared pool — player-fired or enemy-fired — and an active enemy, the
projectile deactivates and the enemy's health drops by exactly the
projectile's damage (stated on one-slot pools; the source applies the same
body to every pair). -/
theorem c3_projectile_damage_on_hit (env : Env) (w : World) (p : Projectile)
    (e : Enemy) (hp : w.projectilePool = [p]) (he : w.enemyPool = [e])
    (hpa : p.active = true) (hea : e.active = true)
    (hc : checkCollision p.rect e.rect = true)
    (hsurv : 0 < e.health - p.damage) :
    (projEnemyPass env w).projectilePool = [{ p with active := false }] ∧
    (projEnemyPass env w).enemyPool =
      [{ e with health := e.health - p.damage }] :=
  projEnemyPass_single env w p e hp he hpa hea hc hsurv

/-- C3 (witness): the stray enemy projectile against the tank, on one-slot
pools. -/
theorem c3_projectile_damage_on_hit_witness :
    (projEnemyPass env0 singleProjWorld).projectilePool =
      [{ strayEnemyProjectile with active := false }] ∧
    (projEnemyPass env0 singleProjWorld).enemyPool =
      [{ tankEnemy with health := tankEnemy.health - strayEnemyProjectile.damage }] :=
  c3_projectile_damage_on_hit env0 singleProjWorld strayEnemyProjectile
    tankEnemy rfl rfl rfl rfl (by decide) (by decide)

/-- C4 (counterexample): one step can set BOTH terminal flags — the
player's projectile kills the boss (game won) while a boss projectile
takes the last life later in the same tick (game over); only at the next
step does the early return freeze the state. -/
theorem c4_simultaneous_terminal_flags :
    bothFlagsWorld.state.gameOver = false ∧
    bothFlagsWorld.state.gameWon = false ∧
    (updateGame env0 16 bothFlagsWorld).state.gameOver = true ∧
    (updateGame env0 16 bothFlagsWorld).state.gameWon = true := by
  decide

/-- C4 (amended): once either terminal flag is set, every further
simulation step returns the state unchanged, so the other flag can never
be set in a later step without a reset; but a single step may set both
flags together. -/
theorem c4_terminal_flags_frozen (env : Env) (dt : ℚ) (w : World)
    (h : w.state.gameOver = true ∨ w.state.gameWon = true) :
    updateGame env dt w = w :=
  updateGame_frozen env dt w h

/-- C4 (witness): a won world is frozen. -/
theorem c4_terminal_flags_frozen_witness :
    updateGame env0 16 gameWonWorld = gameWonWorld :=
  c4_terminal_flags_frozen env0 16 gameWonWorld (Or.inr (by decide))

/-- C5 (counterexample): `saveHighScore` writes unconditionally — saving 5
over a stored "10" replaces it, so "calling save with a value lower than
the currently stored one leaves the stored value unchanged" fails for the
raw storage function. -/
theorem c5_lower_score_overwrites :
    saveHighScore (some "10") 5 = some "5" ∧
    getHighScore (saveHighScore (some "10") 5) = some 5 := by
  decide

/-- C5 (amended): the raw `saveHighScore` overwrites unconditionally (so
repeating the same value is idempotent but a lower value replaces the
stored one); the game's three call sites all wrap it in the
`score > highScoreRef` guard, and through that guarded path a
lower-or-equal score leaves both the ref and storage unchanged, and a
repeated save of the same value is a no-op. -/
theorem c5_guarded_persist :
    (∀ (st : Option String) (s : Int),
      saveHighScore (saveHighScore st s) s = saveHighScore st s) ∧
    (∀ (s ref : Int) (st : Option String), s ≤ ref →
      persistIfBeaten s ref st = (ref, st)) ∧
    (∀ (s ref : Int) (st : Option String),
      persistIfBeaten s (persistIfBeaten s ref st).1
        (persistIfBeaten s ref st).2 = persistIfBeaten s ref st) := by
  refine ⟨fun st s => rfl, fun s ref st h => ?_, fun s ref st => ?_⟩
  · unfold persistIfBeaten
    rw [if_neg (not_lt.mpr h)]
  · by_cases h : ref < s <;> simp [persistIfBeaten, h]

/-- C5 (witness): concrete instances of the three guarded-persist facts. -/
theorem c5_guarded_persist_witness :
    saveHighScore (saveHighScore (some "0") 7) 7 = saveHighScore (some "0") 7 ∧
    persistIfBeaten 5 10 (some "10") = (10, some "10") ∧
    persistIfBeaten 7 (persistIfBeaten 7 0 (some "0")).1
      (persistIfBeaten 7 0 (some "0")).2 = persistIfBeaten 7 0 (some "0") :=
  ⟨c5_guarded_persist.1 (some "0") 7,
   c5_guarded_persist.2.1 5 10 (some "10") (by norm_num),
   c5_guarded_persist.2.2 7 0 (some "0")⟩

/-- C6 (counterexample): a corrupt entry makes `getHighScore` return `NaN`
(modelled `none`), not zero, and the function has no `try`/`catch`, so a
throwing storage read propagates instead of being swallowed. -/
theorem c6_corrupt_or_throwing_load :
    getHighScore (some "abc") ≠ some 0 ∧
    getHighScoreChecked (Except.error ()) = Except.error () :=
  ⟨by decide, rfl⟩

/-- C6 (amended): `getHighScore` returns the stored decimal value, and
zero when the entry is absent or empty (the `|| '0'` default); but a
non-numeric entry yields `NaN` (`none`), and an exception from the storage
read propagates uncaught. -/
theorem c6_load_semantics :
    getHighScore none = some 0 ∧
    getHighScore (some "") = some 0 ∧
    getHighScore (some "4200") = some 4200 ∧
    getHighScore (some "abc") = none ∧
    getHighScoreChecked (Except.error ()) = Except.error () :=
  ⟨by decide, by decide, by decide, by decide, rfl⟩

/-- C7 (counterexample): the stored `multiplier` field is not a function
of the combo counter — after the combo window lapses the combo resets to
0 while the multiplier stays at its last computed value 2, yet a fresh
state has combo 0 with multiplier 1. -/
theorem c7_multiplier_retains_history :
    (updateGame env0 16 staleMultiplierWorld).state.combo = 0 ∧
    (updateGame env0 16 staleMultiplierWorld).state.multiplier = 2 ∧
    initialState.combo = 0 ∧
    initialState.multiplier = 1 := by
  decide

/-- C7 (amended): the combo counter is zero whenever its decay timer has
expired (an invariant every step preserves), and the multiplier the
scoring block actually applies is the pure function `pureMultiplier` of
the post-kill combo; only the stored `multiplier` field — rewritten solely
when the combo exceeds five — retains history. -/
theorem c7_combo_reset_and_applied_multiplier :
    (∀ (env : Env) (dt : ℚ) (w : World),
      (w.state.comboTimer ≤ 0 → w.state.combo = 0) →
      (updateGame env dt w).state.comboTimer ≤ 0 →
        (updateGame env dt w).state.combo = 0) ∧
    (∀ (env : Env) (e : Enemy) (st : GameState) (particles : List Particle),
      (applyKillScore env e st particles).1.score =
        st.score + basePoints e.type * pureMultiplier (st.combo + 1)) :=
  ⟨fun env dt w h => (updateGame_spec env dt w).2.2.2.2.2.1 h,
   fun env e st particles => (applyKillScore_score env e st particles).1⟩

/-- C7 (witness): over the lapsing-window world the step zeroes the combo;
the kill-score equation at a concrete state. -/
theorem c7_combo_reset_and_applied_multiplier_witness :
    (updateGame env0 16 staleMultiplierWorld).state.combo = 0 ∧
    (applyKillScore env0 tankEnemy initialState createParticlePool).1.score =
      initialState.score +
        basePoints tankEnemy.type * pureMultiplier (initialState.combo + 1) :=
  ⟨c7_combo_reset_and_applied_multiplier.1 env0 16 staleMultiplierWorld
     (by decide) (by decide),
   c7_combo_reset_and_applied_multiplier.2 env0 tankEnemy initialState
     createParticlePool⟩

/-- C8 (counterexample): a fire request on a saturated projectile pool
activates nothing, but it is NOT a no-op that leaves all state unchanged —
`lastShot` is still stamped. -/
theorem c8_saturated_fire_updates_lastShot :
    (∀ p ∈ saturatedPoolWorld.projectilePool, p.active = true) ∧
    (shoot 200 saturatedPoolWorld).projectilePool =
      saturatedPoolWorld.projectilePool ∧
    saturatedPoolWorld.state.lastShot = 0 ∧
    (shoot 200 saturatedPoolWorld).state.lastShot = 200 ∧
    shoot 200 saturatedPoolWorld ≠ saturatedPoolWorld := by
  decide

/-- C8 (amended): the pools are created at capacities 50/30/200/10 and no
simulation step or fire request ever changes a pool's size (so the active
count is always bounded by the capacity); a spawn request on a saturated
pool is a strict no-op, and a fire request on a saturated pool activates
no projectile — though it still updates `lastShot`. -/
theorem c8_pool_capacity_bounds :
    (createProjectilePool.length = 50 ∧ createEnemyPool.length = 30 ∧
      createParticlePool.length = 200 ∧ createPowerUpPool.length = 10) ∧
    (∀ (env : Env) (dt : ℚ) (w : World),
      (updateGame env dt w).projectilePool.length = w.projectilePool.length ∧
      (updateGame env dt w).enemyPool.length = w.enemyPool.length ∧
      (updateGame env dt w).particlePool.length = w.particlePool.length ∧
      (updateGame env dt w).powerupPool.length = w.powerupPool.length) ∧
    (∀ (t : ℚ) (w : World),
      (shoot t w).projectilePool.length = w.projectilePool.length ∧
      (shoot t w).enemyPool = w.enemyPool ∧
      (shoot t w).particlePool = w.particlePool ∧
      (shoot t w).powerupPool = w.powerupPool) ∧
    (∀ pool : List Enemy, countActiveEnemies pool ≤ pool.length) ∧
    (∀ (env : Env) (pool : List Enemy), (∀ e ∈ pool, e.active = true) →
      spawnEnemy env pool = pool) ∧
    (∀ (env : Env) (pool : List PowerUp), (∀ p ∈ pool, p.active = true) →
      spawnPowerUp env pool = pool) ∧
    (∀ (env : Env) (enemies : List Enemy) (particles : List Particle),
      (∀ e ∈ enemies, e.active = true) →
      spawnBoss env enemies particles = (enemies, particles)) ∧
    (∀ (t : ℚ) (w : World), (∀ p ∈ w.projectilePool, p.active = true) →
      (shoot t w).projectilePool = w.projectilePool) := by
  refine ⟨⟨rfl, rfl, rfl, rfl⟩, fun env dt w => ?_, fun t w => ?_,
    fun pool => ?_, spawnEnemy_saturated, spawnPowerUp_saturated,
    spawnBoss_saturated, fun t w h => (shoot_spec t w).2.2.2.2 h⟩
  · obtain ⟨u1, u2, u3, u4, _, _, _, _⟩ := updateGame_spec env dt w
    exact ⟨u1, u2, u3, u4⟩
  · obtain ⟨s1, s2, s3, s4, _⟩ := shoot_spec t w
    exact ⟨s1, s2, s3, s4⟩
  · unfold countActiveEnemies
    exact List.length_filter_le _ _

/-- C8 (witness): the capacity bound and the saturated-spawn no-op at a
concrete pool. -/
theorem c8_pool_capacity_bounds_witness :
    (updateGame env0 16 doubleHitWorld).enemyPool.length =
      doubleHitWorld.enemyPool.length ∧
    spawnEnemy env0 (createEnemyPool.map (fun e => { e with active := true })) =
      createEnemyPool.map (fun e => { e with active := true }) :=
  ⟨((c8_pool_capacity_bounds.2.1 env0 16 doubleHitWorld).2.1),
   c8_pool_capacity_bounds.2.2.2.2.1 env0
     (createEnemyPool.map (fun e => { e with active := true })) (by decide)⟩

/-- C9: once the level has reached `BOSS_SPAWN_LEVEL` with a clear boss
flag and an empty arena, the very next elapsed spawn opportunity activates
exactly one enemy, of boss type, and latches `bossActive`; and while
`bossActive` is latched — it is set exactly when the boss spawns and
cleared exactly when the boss dies — the spawn phase does nothing at all,
so no regular enemy can spawn while the boss lives. -/
theorem c9_boss_gate :
    (∀ (env : Env) (w : World),
      env.now - w.state.lastEnemySpawn > spawnRate w.state.level →
      w.state.level ≥ BOSS_SPAWN_LEVEL → w.state.bossActive = false →
      countActiveEnemies w.enemyPool = 0 → w.enemyPool ≠ [] →
      countActiveEnemies (spawnPhase env w).enemyPool = 1 ∧
      (∀ e ∈ (spawnPhase env w).enemyPool, e.active = true →
        e.type = EnemyType.boss) ∧
      (spawnPhase env w).state.bossActive = true) ∧
    (∀ (env : Env) (w : World), w.state.bossActive = true →
      spawnPhase env w = w) :=
  ⟨spawnPhase_boss, spawnPhase_bossBusy⟩

/-- C9 (witness): the level-5 empty arena spawns exactly one boss, and a
latched boss flag freezes spawning. -/
theorem c9_boss_gate_witness :
    countActiveEnemies (spawnPhase env0 bossReadyWorld).enemyPool = 1 ∧
    (spawnPhase env0 bossReadyWorld).state.bossActive = true ∧
    spawnPhase env0 bossBusyWorld = bossBusyWorld := by
  obtain ⟨h1, h2, h3⟩ := c9_boss_gate.1 env0 bossReadyWorld (by decide)
    (by decide) (by decide) (by decide) (by decide)
  exact ⟨h1, h3, c9_boss_gate.2 env0 bossBusyWorld (by decide)⟩

/-- C10: lives start at 3 and never exceed 5 — the health power-up is the
only operation that raises lives and it caps at `min 5 (lives + 1)`, so
the bound is an invariant of every simulation step. -/
theorem c10_lives_cap :
    initialState.player.lives = 3 ∧
    (∀ (env : Env) (dt : ℚ) (w : World), w.state.player.lives ≤ 5 →
      (updateGame env dt w).state.player.lives ≤ 5) :=
  ⟨rfl, fun env dt w h => (updateGame_spec env dt w).2.2.2.2.2.2.1 h⟩

/-- C10 (witness): the cap holds across a concrete step. -/
theorem c10_lives_cap_witness :
    (updateGame env0 16 doubleHitWorld).state.player.lives ≤ 5 :=
  c10_lives_cap.2 env0 16 doubleHitWorld (by decide)

end CyberGame
